import Mathlib

/-!
Verification development for the Scalar-Field SEC-filing retrieval engine.

The Python source is shallowly embedded: floats are modelled as exact
rationals (ℚ) where the code performs field arithmetic and comparisons on
finitely representable values, and as reals (ℝ) where a square root enters
(vector norms, cosine similarity, L2 normalization).  Strings are Lean
strings over their character lists; Python dicts are association lists in
insertion order; `None`-able and exception-throwing paths are `Option`s.
External collaborators (sentence-transformers, sklearn's vectorizer and
SVD) are modelled as oracle parameters; everything implemented in the
repository itself is translated definitionally.
-/

/-! ## Python string primitives (str.split, str.strip, str.lower, substring tests) -/

/-- Whitespace characters recognised by Python's `str.split()` and `str.strip()`. -/
def wsChars : List Char := [' ', '\t', '\n', '\r', Char.ofNat 11, Char.ofNat 12]

/-- Whether a character is Python whitespace. -/
def isWs (c : Char) : Bool := wsChars.contains c

/-- Helper for `pySplitChars`: accumulates the current word (reversed). -/
def splitWsAux : List Char → List Char → List (List Char)
  | [], cur => if cur.isEmpty then [] else [cur.reverse]
  | c :: rest, cur =>
    if isWs c then
      if cur.isEmpty then splitWsAux rest [] else cur.reverse :: splitWsAux rest []
    else splitWsAux rest (c :: cur)

/-- Python `str.split()` with no argument: split on whitespace runs, no empty words. -/
def pySplitChars (s : List Char) : List (List Char) := splitWsAux s []

/-- Python `text.split()` on a Lean string. -/
def pySplit (s : String) : List String := (pySplitChars s.data).map (fun w => ⟨w⟩)

/-- Python `' '.join(words)`. -/
def joinSpace (ws : List String) : String := String.intercalate " " ws

/-- Python `str.strip()`: drop leading and trailing whitespace. -/
def pyStrip (s : String) : String :=
  ⟨((s.data.dropWhile (fun c => isWs c)).reverse.dropWhile (fun c => isWs c)).reverse⟩

/-- Python `str.lower()` (ASCII model). -/
def lowerStr (s : String) : String := ⟨s.data.map Char.toLower⟩

/-- Whether `pre` is a prefix of `l` (by character equality). -/
def leadsWith : List Char → List Char → Bool
  | [], _ => true
  | _ :: _, [] => false
  | a :: as, b :: bs => a == b && leadsWith as bs

/-- Whether `needle` occurs as a contiguous substring of `hay`
(Python's `needle in hay` on strings). -/
def containsSub (hay needle : List Char) : Bool :=
  match hay with
  | [] => needle.isEmpty
  | _ :: rest => leadsWith needle hay || containsSub rest needle

/-- Python `needle in hay` for strings. -/
def strContains (hay needle : String) : Bool := containsSub hay.data needle.data

/-! ## Python values (the payloads of metadata dicts) -/

/-- A Python value as stored in chunk metadata and filter maps: strings,
ints, floats (as ℚ), booleans, `None`, lists and dicts. -/
inductive PyVal where
  | s (v : String)
  | i (v : Int)
  | q (v : ℚ)
  | b (v : Bool)
  | pnone
  | plist (vs : List PyVal)
  | pdict (entries : List (String × PyVal))
  deriving Inhabited

mutual

/-- Python `==` on values.  Scalars compare by value; lists elementwise.
Dicts built by this code base are always constructed in one deterministic
insertion order, so dict equality is modelled as ordered entry equality. -/
def PyVal.beq : PyVal → PyVal → Bool
  | .s x, .s y => x == y
  | .i x, .i y => x == y
  | .q x, .q y => x == y
  | .b x, .b y => x == y
  | .pnone, .pnone => true
  | .plist x, .plist y => PyVal.beqL x y
  | .pdict x, .pdict y => PyVal.beqD x y
  | _, _ => false

/-- Elementwise `==` on Python lists. -/
def PyVal.beqL : List PyVal → List PyVal → Bool
  | [], [] => true
  | x :: xs, y :: ys => PyVal.beq x y && PyVal.beqL xs ys
  | _, _ => false

/-- Entrywise `==` on dict entry lists. -/
def PyVal.beqD : List (String × PyVal) → List (String × PyVal) → Bool
  | [], [] => true
  | (k1, v1) :: xs, (k2, v2) :: ys => k1 == k2 && PyVal.beq v1 v2 && PyVal.beqD xs ys
  | _, _ => false

end

/-- A Python dict with string keys, in insertion order. -/
abbrev PyDict := List (String × PyVal)

/-- Python `d.get(k)` / `d[k]` lookup (keys are unique in dicts built here). -/
def dget (md : PyDict) (k : String) : Option PyVal :=
  (md.find? (fun e => e.1 == k)).map (fun e => e.2)

/-- Python `d[k] = v`: overwrite in place if the key exists (keeping its
original insertion position), otherwise append. -/
def dset (md : PyDict) (k : String) (v : PyVal) : PyDict :=
  if (md.find? (fun e => e.1 == k)).isSome then
    md.map (fun e => if e.1 == k then (k, v) else e)
  else md ++ [(k, v)]

/-- Python `d.get(k, dflt)` where the caller expects a string
(`str()` conversion of a non-string scalar, faithful for the values this
code base stores). -/
def pyStr : PyVal → String
  | .s v => v
  | .i v => toString v
  | .q v => toString v
  | .b v => if v then "True" else "False"
  | .pnone => "None"
  | .plist _ => "[...]"
  | .pdict _ => "{...}"

/-- Python `metadata.get(key, default)` coerced to a string. -/
def dgetStr (md : PyDict) (k : String) (dflt : String) : String :=
  match dget md k with
  | some v => pyStr v
  | none => dflt

/-! ## vector_store/vector_db.py — data model -/

/-- One entry of `VectorDB.chunks_data`: the dict built in `add_chunks`
(`text`, `metadata`, `chunk_id`, `embedding`, `added_date`).
Embedding components are modelled as exact rationals. -/
structure ChunkRec where
  text : String
  metadata : PyDict
  chunk_id : String
  embedding : Option (List ℚ)
  added_date : String
  deriving Inhabited

/-- The metadata index: key → (value → positions). -/
abbrev MetaIndex := List (String × List (PyVal × List Nat))

/-- The in-memory state of `VectorDB`. -/
structure VectorDB where
  chunks_data : List ChunkRec
  metadata_index : MetaIndex
  use_fallback : Bool
  storage_path : String
  collection_name : String

/-- Whether a stored metadata dict matches one (key, value) filter pair:
the key must be present; a list-valued filter means membership
(`metadata[key] in value`), otherwise equality (`metadata[key] == value`).
Direct translation of the loop body of `VectorDB._apply_filters`. -/
def filterPairMatches (md : PyDict) (k : String) (v : PyVal) : Bool :=
  match dget md k with
  | none => false
  | some mv =>
    match v with
    | .plist vs => vs.any (fun x => PyVal.beq mv x)
    | _ => PyVal.beq mv v

/-- Whether a metadata dict matches every filter pair (the filters are ANDed). -/
def matchesFilters (filters : PyDict) (md : PyDict) : Bool :=
  filters.all (fun kv => filterPairMatches md kv.1 kv.2)

/-- `VectorDB._apply_filters`: the indices of all stored chunks whose
metadata matches every filter; with no filters, every index. -/
def VectorDB.apply_filters (db : VectorDB) (filters : PyDict) : List Nat :=
  if filters.isEmpty then List.range db.chunks_data.length
  else (List.range db.chunks_data.length).filter
    (fun i => matchesFilters filters (db.chunks_data.getD i default).metadata)

/-! ## vector_store/vector_db.py — scoring -/

/-- Stop words of `VectorDB._extract_meaningful_words`. -/
def vdbStopWords : List String :=
  ["the", "a", "an", "and", "or", "but", "in", "on", "at", "to",
   "for", "of", "with", "by", "what", "how", "when", "where", "why",
   "is", "are", "was", "were", "be", "been", "being", "have", "has", "had"]

/-- Python `\w` (ASCII model): letters, digits, underscore. -/
def isWordChar (c : Char) : Bool := c.isAlphanum || c == '_'

/-- Helper: maximal runs of word characters (the matches of `\b\w+\b`). -/
def wordRunsAux : List Char → List Char → List (List Char)
  | [], cur => if cur.isEmpty then [] else [cur.reverse]
  | c :: rest, cur =>
    if isWordChar c then wordRunsAux rest (c :: cur)
    else if cur.isEmpty then wordRunsAux rest [] else cur.reverse :: wordRunsAux rest []

/-- All matches of `re.findall(r'\b\w+\b', s)`. -/
def findWordRuns (s : List Char) : List (List Char) := wordRunsAux s []

/-- `VectorDB._extract_meaningful_words`: lowercase word tokens that are
not stop words and are longer than 2 characters. -/
def extract_meaningful_words (query : String) : List String :=
  let words := (findWordRuns (lowerStr query).data).map (fun w => (⟨w⟩ : String))
  words.filter (fun w => ¬ vdbStopWords.contains w && w.length > 2)

/-- `VectorDB._calculate_enhanced_keyword_score`: whole-word matches count
1.0, substring-only matches count 0.5, normalized by the query word count
and capped at 1.0.  Exact rational arithmetic models the float arithmetic. -/
def calc_enhanced_keyword_score (text : String) (query_words : List String) : ℚ :=
  if query_words.isEmpty then 0
  else
    let text_lower := lowerStr text
    let padded := " " ++ text_lower ++ " "
    let exact := (query_words.filter (fun w => strContains padded (" " ++ w ++ " "))).length
    let substrOnly := (query_words.filter
      (fun w => strContains text_lower w && ¬ strContains padded (" " ++ w ++ " "))).length
    min 1 (((exact : ℚ) * 1 + (substrOnly : ℚ) * (1 / 2)) / (query_words.length : ℚ))

/-- Dot product of two embedding vectors (`np.dot`); `zipWith` is only a
device — the callers guard mismatched lengths separately. -/
def dotQ (a b : List ℚ) : ℚ := (List.zipWith (fun x y => x * y) a b).sum

/-- Sum of squares of an embedding vector. -/
def sumSqQ (a : List ℚ) : ℚ := (a.map (fun x => x * x)).sum

/-- Euclidean norm (`np.linalg.norm`), a real because of the square root. -/
noncomputable def normR (a : List ℚ) : ℝ := Real.sqrt ((sumSqQ a : ℚ) : ℝ)

/-- `VectorDB._cosine_similarity`.  `np.dot` raises on mismatched shapes and
the surrounding `try/except` returns 0.0; with both norms nonzero the value
is dot / (norm1 * norm2). -/
noncomputable def cosine_similarity (v1 v2 : List ℚ) : ℝ :=
  if v1.length ≠ v2.length then 0
  else if normR v1 = 0 ∨ normR v2 = 0 then 0
  else ((dotQ v1 v2 : ℚ) : ℝ) / (normR v1 * normR v2)

/-! ## vector_store/vector_db.py — search -/

/-- A result dict of `VectorDB.search`. -/
structure SearchResult where
  text : String
  metadata : PyDict
  chunk_id : String
  similarity : ℝ
  semantic_score : ℝ
  keyword_score : ℚ

/-- A result dict of `VectorDB.search_by_metadata` (no score breakdown). -/
structure MetaSearchResult where
  text : String
  metadata : PyDict
  chunk_id : String
  similarity : ℚ

/-- The per-candidate score computation of `VectorDB.search`: semantic
score is cosine similarity clamped at 0 (0.0 with no stored embedding),
keyword score from the lexical overlap, combined with path-dependent
weights (fallback 0.4/0.6, primary 0.7/0.3).  The query embedding `qe`
abstracts `generate_single_embedding` (the embedding model is external). -/
noncomputable def result_of (db : VectorDB) (qe : List ℚ) (query_words : List String)
    (idx : Nat) : SearchResult :=
  let chunk := db.chunks_data.getD idx default
  let semantic : ℝ :=
    match chunk.embedding with
    | some emb => max 0 (cosine_similarity qe emb)
    | none => 0
  let kw : ℚ := calc_enhanced_keyword_score chunk.text query_words
  let combined : ℝ :=
    if db.use_fallback then 0.4 * semantic + 0.6 * (kw : ℝ)
    else 0.7 * semantic + 0.3 * (kw : ℝ)
  ⟨chunk.text, chunk.metadata, chunk.chunk_id, combined, semantic, kw⟩

/-- The per-path minimum combined-score threshold of `VectorDB.search`. -/
def VectorDB.min_threshold (db : VectorDB) : ℝ :=
  if db.use_fallback then 0.05 else 0.1

/-- The candidate indices of `VectorDB.search` (a present filter dict is
applied; absent or empty means all indices, matching Python truthiness). -/
def VectorDB.candidates (db : VectorDB) (filters : Option PyDict) : List Nat :=
  match filters with
  | some f => db.apply_filters f
  | none => List.range db.chunks_data.length

/-- `VectorDB.search`: filter candidates, score each, keep those whose
combined score exceeds the path threshold, sort by similarity descending
(Python's stable sort) and truncate to `n_results`. -/
noncomputable def VectorDB.search (db : VectorDB) (qe : List ℚ) (query : String)
    (n_results : Nat) (filters : Option PyDict) : List SearchResult :=
  if db.chunks_data.isEmpty then []
  else
    let cand := db.candidates filters
    if cand.isEmpty then []
    else
      let query_words := extract_meaningful_words query
      let results := cand.filterMap (fun idx =>
        let r := result_of db qe query_words idx
        if db.min_threshold < r.similarity then some r else none)
      (results.mergeSort (fun a b => decide (b.similarity ≤ a.similarity))).take n_results

/-- `VectorDB.search_by_metadata`: apply the filters, truncate to
`n_results`, and return the matching chunks with similarity 1.0. -/
def VectorDB.search_by_metadata (db : VectorDB) (metadata_filters : PyDict)
    (n_results : Nat) : List MetaSearchResult :=
  ((db.apply_filters metadata_filters).take n_results).map (fun idx =>
    let chunk := db.chunks_data.getD idx default
    ⟨chunk.text, chunk.metadata, chunk.chunk_id, 1⟩)

/-! ## vector_store/vector_db.py — persistence -/

/-- The dict pickled by `VectorDB._save_to_disk`. -/
structure Snapshot where
  chunks_data : List ChunkRec
  metadata_index : MetaIndex
  collection_name : String
  saved_at : String

/-- Contents of a file on disk: a complete well-formed pickle, or a
truncated / partially written file that `pickle.load` cannot read. -/
inductive FileContent where
  | good (s : Snapshot)
  | truncated

/-- The file system: path → contents. -/
def Disk : Type := String → Option FileContent

/-- One observable file-system operation. -/
inductive FsOp where
  | openTrunc (path : String)
  | writeAll (path : String) (s : Snapshot)
  | renameFile (src dst : String)

/-- Whether an operation is a rename. -/
def FsOp.isRenameOp : FsOp → Bool
  | .renameFile _ _ => true
  | _ => false

/-- The path an operation touches (its destination for a rename). -/
def FsOp.target : FsOp → String
  | .openTrunc p => p
  | .writeAll p _ => p
  | .renameFile _ dst => dst

/-- Effect of one file-system operation. -/
def applyFsOp (d : Disk) : FsOp → Disk
  | .openTrunc p => fun x => if x = p then some .truncated else d x
  | .writeAll p s => fun x => if x = p then some (.good s) else d x
  | .renameFile src dst => fun x =>
      if x = dst then d src else if x = src then none else d x

/-- Effect of a sequence of file-system operations. -/
def applyFsOps (d : Disk) (ops : List FsOp) : Disk := ops.foldl applyFsOp d

/-- The operations `VectorDB._save_to_disk` performs:
`open(self.storage_path, 'wb')` truncates the target file in place, then
`pickle.dump` writes the snapshot into it.  No temporary file and no
rename appear in the source. -/
def save_to_disk_ops (storage_path : String) (data : Snapshot) : List FsOp :=
  [.openTrunc storage_path, .writeAll storage_path data]

/-- `VectorDB._load_from_disk`: a readable pickle restores `chunks_data`
and `metadata_index`; a missing file keeps the initial empty state; an
unreadable file raises, and the except branch resets both to empty. -/
def load_from_disk (d : Disk) (storage_path : String) : List ChunkRec × MetaIndex :=
  match d storage_path with
  | some (.good snap) => (snap.chunks_data, snap.metadata_index)
  | some .truncated => ([], [])
  | none => ([], [])

/-- `VectorDB.__init__` bound to an existing disk: fresh empty state, then
`_load_from_disk`. -/
def newVectorDB (d : Disk) (collection_name storage_path : String)
    (use_fallback : Bool) : VectorDB :=
  let loaded := load_from_disk d storage_path
  { chunks_data := loaded.1
    metadata_index := loaded.2
    use_fallback := use_fallback
    storage_path := storage_path
    collection_name := collection_name }

/-- `VectorDB.reset_collection`: clears the in-memory record list and
metadata index; performs no file-system operation. -/
def VectorDB.reset_collection (db : VectorDB) (d : Disk) : VectorDB × Disk :=
  ({ db with chunks_data := [], metadata_index := [] }, d)

/-- `VectorDB.delete_collection`: clears the in-memory state and removes
the snapshot file if it exists. -/
def VectorDB.delete_collection (db : VectorDB) (d : Disk) : VectorDB × Disk :=
  ({ db with chunks_data := [], metadata_index := [] },
   fun x => if x = db.storage_path then none else d x)

/-! ## vector_store/embeddings.py — fallback embedding provider -/

/-- Preprocessing allow-list of `_preprocess_financial_text`. -/
def importantShort : List String := ["r&d", "ai", "it", "us", "uk", "eu", "ceo", "cfo", "sec"]

/-- Characters kept by `re.sub(r'[^\w\s\.\$\%\-]', ' ', text)`. -/
def keptChar (c : Char) : Bool :=
  isWordChar c || isWs c || c == '.' || c == '$' || c == '%' || c == '-'

/-- Helper collapsing whitespace runs to single spaces (`re.sub(r'\s+', ' ', ·)`). -/
def collapseWsAux : List Char → Bool → List Char
  | [], _ => []
  | c :: rest, prevWs =>
    if isWs c then
      if prevWs then collapseWsAux rest true else ' ' :: collapseWsAux rest true
    else c :: collapseWsAux rest false

/-- `EmbeddingGenerator._preprocess_financial_text`: lowercase, collapse
whitespace, strip punctuation except currency/percent/dot/hyphen, drop
tokens under 2 characters unless allow-listed, rejoin with spaces. -/
def preprocess_financial_text (text : String) : String :=
  let t1 := (lowerStr text).data
  let t2 := collapseWsAux t1 false
  let t3 := t2.map (fun c => if keptChar c then c else ' ')
  let words := (pySplitChars t3).map (fun w => (⟨w⟩ : String))
  joinSpace (words.filter (fun w => w.length ≥ 2 || importantShort.contains w))

/-- Sum of squares of a real vector. -/
def sumSqR (v : List ℝ) : ℝ := (v.map (fun x => x * x)).sum

/-- The all-zero vector `np.zeros(n)`. -/
def zeroVec (n : Nat) : List ℝ := List.replicate n 0

/-- Oracle for the fitted sklearn pipeline (TfidfVectorizer.transform
composed with TruncatedSVD.transform); `none` models a raised exception. -/
structure SkFitted where
  transform : String → Option (List ℝ)

/-- Oracle for `fit_transform` followed by `svd.fit` and the batch
transform inside `_generate_fallback_embeddings`; `none` models an
exception anywhere in that fitting path. -/
structure SkOracle where
  fitBatch : List String → Option (SkFitted × List (List ℝ))

/-- The fallback `EmbeddingGenerator` state: the `use_fallback` and
`is_fitted` flags, the not-yet-fitted oracle, and the fitted pipeline when
one exists. -/
structure EmbGen where
  use_fallback : Bool
  is_fitted : Bool
  sk : SkOracle
  fitted : Option SkFitted
  encode : String → List ℝ

/-- Row L2 normalization of `_generate_fallback_embeddings` (zero-norm rows
are divided by 1, i.e. kept). -/
noncomputable def normalizeRow (v : List ℝ) : List ℝ :=
  let n := Real.sqrt (sumSqR v)
  if n = 0 then v else v.map (fun x => x / n)

/-- `EmbeddingGenerator._generate_fallback_embeddings` on the unfitted
state: preprocess, fit once, transform, L2-normalize rows.  `none` models
the exception propagating to the caller. -/
noncomputable def generate_fallback_embeddings (g : EmbGen) (texts : List String) :
    Option (EmbGen × List (List ℝ)) :=
  let cleaned := texts.map preprocess_financial_text
  if g.is_fitted then
    match g.fitted with
    | some f =>
      match (cleaned.mapM f.transform) with
      | some rows => some (g, rows.map normalizeRow)
      | none => none
    | none => none
  else
    match g.sk.fitBatch cleaned with
    | some (f, rows) => some ({ g with is_fitted := true, fitted := some f }, rows.map normalizeRow)
    | none => none

/-- `EmbeddingGenerator.generate_single_embedding` on the fallback path:
fit-on-single-text when unfitted (exceptions give the zero vector of
dimension 384), then transform the preprocessed text and L2-normalize when
the norm is positive; any exception again gives the 384-zero vector.  The
primary path delegates to the external model's `encode`. -/
noncomputable def generate_single_embedding (g : EmbGen) (text : String) :
    List ℝ × EmbGen :=
  if g.use_fallback then
    let afterFit : Option EmbGen :=
      if ¬ g.is_fitted then
        match generate_fallback_embeddings g [text] with
        | some (g2, _) => some g2
        | none => none
      else some g
    match afterFit with
    | none => (zeroVec 384, g)
    | some g2 =>
      let cleaned := preprocess_financial_text text
      match g2.fitted with
      | none => (zeroVec 384, g2)
      | some f =>
        match f.transform cleaned with
        | none => (zeroVec 384, g2)
        | some emb =>
          let nrm := Real.sqrt (sumSqR emb)
          (if 0 < nrm then emb.map (fun x => x / nrm) else emb, g2)
  else (g.encode text, g)

/-! ## query_processing/query_router.py — query-shape routing -/

/-- The query types of `query_router.QueryType`. -/
inductive QueryType where
  | single_company
  | multi_company
  | temporal_analysis
  | cross_sectional
  | general_search
  deriving DecidableEq

/-- The comparison-intent dict built by
`EntityExtractor.extract_comparison_intent` (`comparison_type` is `None`
when no comparison keyword was seen). -/
structure ComparisonIntent where
  is_comparison : Bool
  comparison_type : Option String

/-- The time-period dict built by `EntityExtractor.extract_time_periods`
(quarters and specific dates are unused by the router's type decision). -/
structure TimePeriods where
  years : List String
  relative_terms : List String

/-- The entity dict built by `EntityExtractor.extract_all_entities`, as
consumed by `QueryRouter._determine_query_type`. -/
structure Entities where
  tickers : List String
  time_periods : TimePeriods
  filing_types : List String
  financial_concepts : List String
  comparison_intent : ComparisonIntent

/-- `QueryRouter._determine_query_type`: the fixed-priority decision on the
extracted entities. -/
def determine_query_type (e : Entities) : QueryType :=
  if e.tickers.length > 1 || e.comparison_intent.is_comparison then
    if e.comparison_intent.comparison_type = some "temporal" then .temporal_analysis
    else .multi_company
  else if e.tickers.length = 1 &&
      (¬ e.time_periods.years.isEmpty || ¬ e.time_periods.relative_terms.isEmpty) then
    .temporal_analysis
  else if e.tickers.length = 1 then .single_company
  else if ¬ e.financial_concepts.isEmpty then .cross_sectional
  else .general_search

/-! ## A small regex engine for the repository's pattern language

Every regular expression in `document_chunker.py` and
`filing_processors.py` is built from literal characters, character
classes, `\s+`, starred classes (`.*`, `[.\s-]*`, `['\s]*`, `\s*`),
plussed classes (`[\d,]+`, `[\d.]+`, `\d+`), greedy optional groups and
alternations of literals.  The engine below enumerates candidate match
lengths in Python's backtracking priority order (greedy, first
alternative first), so the head of the list is exactly the length
`re.match` would produce; classes compare case-insensitively, matching
`re.IGNORECASE` (and harmless on already-lowercased inputs). -/

/-- A character class as a predicate. -/
def CC : Type := Char → Bool

/-- Literal pattern character (compared case-insensitively). -/
def ccLit (c : Char) : CC := fun x => x.toLower == c

/-- Python `\s`. -/
def ccWs : CC := fun x => isWs x

/-- Python `\d`. -/
def ccDigit : CC := fun x => x.isDigit

/-- Python `.` (anything except a newline). -/
def ccDot : CC := fun x => x != '\n'

/-- Python `[\d,]`. -/
def ccDigitComma : CC := fun x => x.isDigit || x == ','

/-- Python `[\d.]`. -/
def ccDigitDot : CC := fun x => x.isDigit || x == '.'

/-- Python `[.\s-]` (also written `[\.\-\s]`). -/
def ccWsDotDash : CC := fun x => isWs x || x == '.' || x == '-'

/-- Python `['\s]`: an ASCII apostrophe or whitespace. -/
def ccApostWs : CC := fun x => isWs x || x == Char.ofNat 39

/-- Regular expressions of the repository's restricted shape:
repetition only over single-character classes. -/
inductive Rx where
  | eps
  | ch (c : CC)
  | star (c : CC)
  | plus (c : CC)
  | seq (a b : Rx)
  | alt (a b : Rx)
  | opt (a : Rx)

/-- Length of the maximal run of class characters at the head. -/
def runLen (c : CC) : List Char → Nat
  | [] => 0
  | x :: rest => if c x then runLen c rest + 1 else 0

/-- All candidate match lengths of `r` at the head of `s`, in Python's
backtracking priority order (the head is the length `re.match` takes). -/
def Rx.lens : Rx → List Char → List Nat
  | .eps, _ => [0]
  | .ch c, s =>
    match s with
    | [] => []
    | x :: _ => if c x then [1] else []
  | .star c, s => (List.range (runLen c s + 1)).reverse
  | .plus c, s => ((List.range (runLen c s)).reverse).map (fun k => k + 1)
  | .seq a b, s => (a.lens s).flatMap (fun la => (b.lens (s.drop la)).map (fun lb => la + lb))
  | .alt a b, s => a.lens s ++ b.lens s
  | .opt a, s => a.lens s ++ [0]

/-- Leftmost match of `re.search`: the first position (relative to the
given list) admitting a match, with the match length Python would take. -/
def rxScan (r : Rx) : List Char → Nat → Option (Nat × Nat)
  | [], pos =>
    match (r.lens []).head? with
    | some l => some (pos, l)
    | none => none
  | s@(_ :: rest), pos =>
    match (r.lens s).head? with
    | some l => some (pos, l)
    | none => rxScan r rest (pos + 1)

/-- Boolean `re.search(pattern, s)`. -/
def rxSearchB (r : Rx) (s : List Char) : Bool := (rxScan r s 0).isSome

/-- Worker for `re.findall`: emit each leftmost match and continue after
it (one char forward on an empty match, as Python does). -/
def rxFindAllAux (r : Rx) (s : List Char) : Nat → List (List Char)
  | 0 => []
  | Nat.succ fuel =>
    match rxScan r s 0 with
    | none => []
    | some (off, l) =>
      let matched := (s.drop off).take l
      if s.isEmpty then [matched]
      else matched :: rxFindAllAux r (s.drop (off + max l 1)) fuel

/-- `re.findall(pattern, s)`: the list of matched substrings. -/
def rxFindAll (r : Rx) (s : List Char) : List String :=
  (rxFindAllAux r s (s.length + 1)).map (fun w => ⟨w⟩)

/-- A literal string pattern. -/
def rxStr (w : String) : Rx :=
  (w.data.map (fun c => Rx.ch (ccLit c))).foldr Rx.seq Rx.eps

/-- Words joined by `\s+`, the dominant pattern shape in the source. -/
def rxWords : List String → Rx
  | [] => Rx.eps
  | [w] => rxStr w
  | w :: rest => Rx.seq (rxStr w) (Rx.seq (Rx.plus ccWs) (rxWords rest))

/-- Chain `a.*b.*c` from its literal pieces. -/
def rxDotStars : List String → Rx
  | [] => Rx.eps
  | [w] => rxStr w
  | w :: rest => Rx.seq (rxStr w) (Rx.seq (Rx.star ccDot) (rxDotStars rest))

/-! ## document_processing/filing_processors.py — FinancialContentIdentifier -/

/-- The pattern `management['\s]*s\s+discussion\s+and\s+analysis`. -/
def rxMgmtDiscussion : Rx :=
  Rx.seq (rxStr "management") (Rx.seq (Rx.star ccApostWs)
    (Rx.seq (rxStr "s") (Rx.seq (Rx.plus ccWs) (rxWords ["discussion", "and", "analysis"]))))

/-- The pattern `forward[.\s-]*looking\s+statements`. -/
def rxForwardLooking : Rx :=
  Rx.seq (rxStr "forward") (Rx.seq (Rx.star ccWsDotDash)
    (Rx.seq (rxStr "looking") (Rx.seq (Rx.plus ccWs) (rxStr "statements"))))

/-- `FinancialContentIdentifier.financial_patterns`, in dict insertion order. -/
def financialPatterns : List (String × List Rx) :=
  [("management_discussion",
    [rxMgmtDiscussion, rxStr "md&a", rxWords ["results", "of", "operations"],
     rxWords ["financial", "condition", "and", "results"],
     rxWords ["liquidity", "and", "capital", "resources"],
     rxWords ["critical", "accounting", "policies"]]),
   ("risk_factors",
    [rxWords ["risk", "factors"], rxWords ["principal", "risks"],
     rxWords ["material", "risks"], rxWords ["factors", "that", "may", "affect"],
     rxForwardLooking, rxWords ["uncertainties", "and", "risks"]]),
   ("financial_statements",
    [rxWords ["consolidated", "statements"], rxWords ["financial", "statements"],
     rxWords ["balance", "sheet"], rxWords ["income", "statement"],
     rxWords ["cash", "flow", "statement"], rxWords ["statements", "of", "operations"],
     rxWords ["statements", "of", "equity"],
     rxWords ["notes", "to", "financial", "statements"]]),
   ("executive_compensation",
    [rxWords ["executive", "compensation"], rxWords ["compensation", "discussion"],
     rxWords ["summary", "compensation", "table"],
     rxWords ["named", "executive", "officers"], rxWords ["pay", "ratio"],
     rxWords ["compensation", "committee"], rxWords ["equity", "compensation"],
     rxWords ["stock", "option", "grants"]]),
   ("business_overview",
    [rxWords ["business", "overview"], rxWords ["our", "business"],
     rxWords ["company", "overview"], rxWords ["business", "description"],
     rxWords ["products", "and", "services"], rxWords ["business", "segments"],
     rxWords ["competitive", "strengths"]]),
   ("governance",
    [rxWords ["corporate", "governance"], rxWords ["board", "of", "directors"],
     rxWords ["audit", "committee"], rxWords ["governance", "principles"],
     rxWords ["director", "independence"], rxWords ["board", "committees"]])]

/-- `FinancialContentIdentifier.identify_financial_content_type`: the
content types whose pattern lists have a match in the lowercased text. -/
def identify_financial_content_type (text : String) : List String :=
  let tl := (lowerStr text).data
  financialPatterns.filterMap (fun e =>
    if e.2.any (fun p => rxSearchB p tl) then some e.1 else none)

/-- The money amount tail `(?:of\s+)?\$?[\d,]+(?:\.\d+)?\s*(?:million|billion)?`. -/
def rxMoneyTail : Rx :=
  Rx.seq (Rx.opt (Rx.seq (rxStr "of") (Rx.plus ccWs)))
    (Rx.seq (Rx.opt (Rx.ch (ccLit '$')))
      (Rx.seq (Rx.plus ccDigitComma)
        (Rx.seq (Rx.opt (Rx.seq (Rx.ch (ccLit '.')) (Rx.plus ccDigit)))
          (Rx.seq (Rx.star ccWs)
            (Rx.opt (Rx.alt (rxStr "million") (rxStr "billion")))))))

/-- The percentage tail `(?:of\s+)?[\d.]+%`. -/
def rxPctTail : Rx :=
  Rx.seq (Rx.opt (Rx.seq (rxStr "of") (Rx.plus ccWs)))
    (Rx.seq (Rx.plus ccDigitDot) (Rx.ch (ccLit '%')))

/-- The revenue patterns of `extract_financial_metrics`. -/
def revenuePatterns : List Rx :=
  [Rx.seq (rxStr "revenue") (Rx.seq (Rx.plus ccWs) rxMoneyTail),
   Rx.seq (rxWords ["net", "sales"]) (Rx.seq (Rx.plus ccWs) rxMoneyTail),
   Rx.seq (rxWords ["total", "revenue"]) (Rx.seq (Rx.plus ccWs)
     (Rx.seq (Rx.alt (rxStr "increased") (rxStr "decreased"))
       (Rx.seq (Rx.plus ccWs)
         (Rx.seq (Rx.opt (Rx.seq (rxStr "by") (Rx.plus ccWs)))
           (Rx.seq (Rx.plus ccDigitDot) (Rx.ch (ccLit '%'))))))),
   Rx.seq (rxWords ["revenue", "growth"]) (Rx.seq (Rx.plus ccWs) rxPctTail)]

/-- The profitability patterns of `extract_financial_metrics`. -/
def profitPatterns : List Rx :=
  [Rx.seq (rxWords ["net", "income"]) (Rx.seq (Rx.plus ccWs) rxMoneyTail),
   Rx.seq (rxWords ["operating", "income"]) (Rx.seq (Rx.plus ccWs) rxMoneyTail),
   Rx.seq (rxWords ["gross", "profit"]) (Rx.seq (Rx.plus ccWs)
     (Rx.seq (Rx.opt (Rx.seq (rxStr "margin") (Rx.plus ccWs))) rxPctTail)),
   Rx.seq (rxWords ["operating", "margin"]) (Rx.seq (Rx.plus ccWs) rxPctTail)]

/-- `FinancialContentIdentifier.extract_financial_metrics`: `re.findall`
with `IGNORECASE` over the raw chunk text; ratio and growth buckets are
initialized but never filled. -/
def extract_financial_metrics (text : String) : List (String × List String) :=
  [("revenue_metrics", revenuePatterns.flatMap (fun p => rxFindAll p text.data)),
   ("profitability_metrics", profitPatterns.flatMap (fun p => rxFindAll p text.data)),
   ("financial_ratios", []),
   ("growth_metrics", [])]

/-- `FinancialContentIdentifier.calculate_content_quality_score`: word-count
tier, 0.15 per detected content type, capped metric bonus, filing-specific
bonuses, multi-type bonus, all capped at 1.0. -/
def calculate_content_quality_score (text : String) (filing_type : String) : ℚ :=
  let wc := (pySplit text).length
  let base : ℚ :=
    if wc > 1000 then 2 / 5
    else if wc > 500 then 3 / 10
    else if wc > 200 then 1 / 5
    else if wc > 50 then 1 / 10
    else 0
  let ctypes := identify_financial_content_type text
  let s1 := base + (ctypes.length : ℚ) * (3 / 20)
  let totalMetrics := ((extract_financial_metrics text).map (fun e => e.2.length)).sum
  let s2 := s1 + min ((totalMetrics : ℚ) * (2 / 25)) (2 / 5)
  let s3 := s2 +
    (if filing_type = "10-K" then
      ((["business_overview", "risk_factors", "management_discussion"].filter
        (fun t => ctypes.contains t)).length : ℚ) * (3 / 20)
    else if filing_type = "DEF 14A" then
      (if ctypes.contains "executive_compensation" then (1 : ℚ) / 4 else 0) +
      (if ctypes.contains "governance" then (1 : ℚ) / 4 else 0)
    else if filing_type = "10-Q" then
      (if ctypes.contains "management_discussion" then (1 : ℚ) / 5 else 0) +
      (if ctypes.contains "financial_statements" then (1 : ℚ) / 5 else 0)
    else 0)
  let s4 := s3 + (if ctypes.length ≥ 2 then (1 : ℚ) / 10 else 0)
  min s4 1

/-! ## document_processing/document_chunker.py — validation -/

/-- The XBRL viewer / index-page indicators of `_validate_filing_content`. -/
def xbrlIndicators : List String :=
  ["xbrl viewer", "ixviewer", "loadviewer", "javascript",
   "iframe", "this page uses javascript", "edgar-logo",
   "filing detail", "edgar filing documents"]

/-- How many of the given indicator strings occur in the text. -/
def countContained (tl : String) (indicators : List String) : Nat :=
  (indicators.filter (fun ind => strContains tl ind)).length

/-- The per-filing-type expected-indicator lexicon of
`_calculate_filing_content_score`. -/
def filingIndicatorsDict (filing_type : String) : Option (List String) :=
  if filing_type = "10-K" then some
    ["annual report", "business overview", "risk factors",
     "management discussion", "financial statements", "consolidated statements",
     "item 1", "item 2", "item 3", "part i", "part ii"]
  else if filing_type = "10-Q" then some
    ["quarterly report", "financial statements", "condensed consolidated",
     "management discussion", "item 1", "item 2", "part i", "part ii"]
  else if filing_type = "8-K" then some
    ["current report", "item 1", "item 2", "item 3", "item 4",
     "item 5", "item 7", "item 8", "item 9", "signature"]
  else if filing_type = "DEF 14A" then some
    ["proxy statement", "annual meeting", "executive compensation",
     "board of directors", "shareholder", "voting", "proposal"]
  else if filing_type = "3" then some
    ["initial statement", "beneficial ownership", "securities owned"]
  else if filing_type = "4" then some
    ["statement of changes", "securities acquired", "securities disposed"]
  else if filing_type = "5" then some
    ["annual statement", "securities beneficially owned"]
  else none

/-- `DocumentChunker._calculate_filing_content_score`: fraction of the
expected indicators found, capped at 1. -/
def calculate_filing_content_score (text_lower : String) (filing_type : String) : ℚ :=
  let expected := (filingIndicatorsDict filing_type).getD ["sec filing", "securities", "company"]
  let found := countContained text_lower expected
  if expected.isEmpty then 0
  else min ((found : ℚ) / (expected.length : ℚ)) 1

/-- The financial terms of `_calculate_financial_content_score`. -/
def validatorFinancialTerms : List String :=
  ["revenue", "income", "profit", "loss", "earnings", "cash flow",
   "assets", "liabilities", "equity", "debt", "investment",
   "financial", "fiscal", "quarter", "annual", "million", "billion",
   "percent", "percentage", "growth", "decline", "increase", "decrease"]

/-- The double-weighted key terms of `_calculate_financial_content_score`. -/
def validatorKeyTerms : List String :=
  ["revenue", "income", "profit", "earnings", "cash flow"]

/-- `DocumentChunker._calculate_financial_content_score`: weighted count of
financial terms present, normalized by 1.5 times the term count, capped at 1. -/
def calculate_financial_content_score (text_lower : String) : ℚ :=
  let cnt := (validatorFinancialTerms.map (fun term =>
    if strContains text_lower term then
      if validatorKeyTerms.contains term then (2 : ℚ) else 1
    else 0)).sum
  let maxPossible : ℚ := (validatorFinancialTerms.length : ℚ) * (3 / 2)
  min (cnt / maxPossible) 1

/-- The verdict of `_validate_filing_content` (the reason strings drop the
interpolated numbers; nothing downstream reads them). -/
structure ValidationResult where
  is_valid : Bool
  reason : String
  quality_score : ℚ

/-- `DocumentChunker._validate_filing_content`: XBRL viewer gate, minimum
word count, filing-content-score gate, then financial-density scoring. -/
def validate_filing_content (text : String) (metadata : PyDict) : ValidationResult :=
  let tl := lowerStr text
  let wc := (pySplit text).length
  let ft := dgetStr metadata "filing_type" ""
  let xbrlCount := countContained tl xbrlIndicators
  if xbrlCount ≥ 3 && wc < 1000 then
    ⟨false, "XBRL viewer page detected", 0⟩
  else if wc < 100 then
    ⟨false, "Content too short", 1 / 10⟩
  else
    let fcs := calculate_filing_content_score tl ft
    if fcs < 3 / 10 then ⟨false, "Low filing content score", fcs⟩
    else ⟨true, "Content validation passed", (fcs + calculate_financial_content_score tl) / 2⟩

/-! ## document_processing/document_chunker.py — per-chunk enrichment -/

/-- `DocumentChunker._classify_section_type`: priority chain over detected
content types with a filing-type fallback. -/
def classify_section_type (content_types : List String) (filing_type : String) : String :=
  if content_types.contains "executive_compensation" then "compensation"
  else if content_types.contains "risk_factors" then "risk"
  else if content_types.contains "management_discussion" then "management_analysis"
  else if content_types.contains "financial_statements" then "financial"
  else if content_types.contains "governance" then "governance"
  else if content_types.contains "business_overview" then "business"
  else if filing_type = "DEF 14A" then "governance"
  else if filing_type = "10-K" || filing_type = "10-Q" then "financial"
  else if filing_type = "8-K" then "events"
  else "general"

/-- The concept patterns of `_extract_financial_concepts`, in dict order. -/
def conceptPatterns : List (String × List Rx) :=
  [("revenue_growth",
    [rxDotStars ["revenue", "growth"], rxDotStars ["sales", "growth"],
     rxDotStars ["top", "line", "growth"]]),
   ("profitability",
    [rxDotStars ["profit", "margin"], rxDotStars ["operating", "margin"],
     rxDotStars ["net", "income"]]),
   ("liquidity",
    [rxDotStars ["cash", "flow"], rxDotStars ["working", "capital"], rxStr "liquidity"]),
   ("debt",
    [rxDotStars ["debt", "ratio"], rxStr "leverage", rxStr "borrowing"]),
   ("market_share",
    [rxDotStars ["market", "share"], rxDotStars ["competitive", "position"]]),
   ("innovation",
    [rxDotStars ["research", "development"], rxStr "r&d", rxStr "innovation"]),
   ("risk_management",
    [rxDotStars ["risk", "management"], rxStr "hedging", rxStr "insurance"]),
   ("acquisitions",
    [rxStr "acquisition", rxStr "merger", rxStr "m&a"]),
   ("dividends",
    [rxStr "dividend", rxDotStars ["share", "repurchase"], rxStr "buyback"]),
   ("guidance",
    [rxStr "guidance", rxStr "outlook", rxStr "forecast"])]

/-- `DocumentChunker._extract_financial_concepts`: concepts whose pattern
lists have a match in the lowercased text. -/
def extract_financial_concepts (text : String) : List String :=
  let tl := (lowerStr text).data
  conceptPatterns.filterMap (fun e =>
    if e.2.any (fun p => rxSearchB p tl) then some e.1 else none)

/-- The financial keyword vocabulary of `_extract_keywords`. -/
def chunkerFinancialKeywords : List String :=
  ["revenue", "income", "profit", "loss", "earnings", "cash flow",
   "assets", "liabilities", "equity", "debt", "investment", "growth",
   "margin", "ratio", "performance", "results", "operations"]

/-- The business keyword vocabulary of `_extract_keywords`. -/
def chunkerBusinessKeywords : List String :=
  ["strategy", "market", "competition", "customer", "product", "service",
   "technology", "innovation", "acquisition", "merger", "expansion",
   "risk", "opportunity", "challenge", "outlook", "guidance"]

/-- First-occurrence deduplication.  Python's `list(set(keywords))` orders
by string hash, which is fixed within one interpreter process; any fixed
deterministic order is a faithful model of a same-process double run. -/
def dedupFirst (l : List String) : List String :=
  l.foldl (fun acc x => if acc.contains x then acc else acc ++ [x]) []

/-- `DocumentChunker._extract_keywords`: content types plus matched
vocabulary words, deduplicated. -/
def extract_keywords (text : String) (content_types : List String) : List String :=
  let tl := lowerStr text
  dedupFirst (content_types ++
    chunkerFinancialKeywords.filter (fun k => strContains tl k) ++
    chunkerBusinessKeywords.filter (fun k => strContains tl k))

/-- The ticker → company-name table of `_get_company_name`. -/
def companyNames : List (String × String) :=
  [("AAPL", "Apple Inc."), ("MSFT", "Microsoft Corporation"),
   ("GOOGL", "Alphabet Inc."), ("AMZN", "Amazon.com Inc."),
   ("TSLA", "Tesla Inc."), ("JPM", "JPMorgan Chase & Co."),
   ("BAC", "Bank of America Corporation"), ("WFC", "Wells Fargo & Company"),
   ("JNJ", "Johnson & Johnson"), ("PFE", "Pfizer Inc."),
   ("XOM", "Exxon Mobil Corporation"), ("CVX", "Chevron Corporation"),
   ("WMT", "Walmart Inc."), ("GE", "General Electric Company"),
   ("CAT", "Caterpillar Inc."), ("BA", "The Boeing Company")]

/-- `DocumentChunker._get_company_name`. -/
def get_company_name (ticker : String) : String :=
  match (companyNames.find? (fun e => e.1 == ticker)).map (fun e => e.2) with
  | some n => n
  | none => ticker ++ " Inc."

/-- `DocumentChunker._generate_citation_text` (YYYYMMDD dates get dashes). -/
def generate_citation_text (base : PyDict) (chunk_index : Nat) : String :=
  let ticker := dgetStr base "ticker" "Unknown"
  let ft := dgetStr base "filing_type" "Unknown"
  let fd := dgetStr base "filing_date" "Unknown"
  let formatted :=
    if fd.data.length = 8 then
      (⟨fd.data.take 4⟩ : String) ++ "-" ++ (⟨(fd.data.drop 4).take 2⟩ : String) ++ "-" ++
        (⟨(fd.data.drop 6).take 2⟩ : String)
    else fd
  get_company_name ticker ++ " " ++ ft ++ " filing dated " ++ formatted ++
    ", Section " ++ toString (chunk_index + 1)

/-- `DocumentChunker._generate_document_url`. -/
def generate_document_url (base : PyDict) : String :=
  "https://www.sec.gov/edgar/search/#" ++ dgetStr base "ticker" "unknown" ++ "_" ++
    dgetStr base "filing_type" "unknown" ++ "_" ++ dgetStr base "filing_date" "unknown"

/-- `DocumentChunker._create_source_attribution`: the attribution dict;
`now` is the value `datetime.now().isoformat()` observed by
`_get_current_timestamp` when this chunk is built. -/
def create_source_attribution (base : PyDict) (chunk_index : Nat) (now : String) : PyDict :=
  [("company_ticker", .s (dgetStr base "ticker" "Unknown")),
   ("company_name", .s (get_company_name (dgetStr base "ticker" ""))),
   ("filing_type", .s (dgetStr base "filing_type" "Unknown")),
   ("filing_date", .s (dgetStr base "filing_date" "Unknown")),
   ("source_file", .s (dgetStr base "source_file" "Unknown")),
   ("chunk_position", .i chunk_index),
   ("citation_text", .s (generate_citation_text base chunk_index)),
   ("document_url", .s (generate_document_url base)),
   ("extraction_timestamp", .s now)]

/-- The clock-independent fields of `_enrich_chunk_metadata`: base
metadata plus position info, content types, metrics, quality score,
section type and concepts. -/
def enrich_core_fields (chunk_text : String) (base : PyDict) (chunk_index : Nat)
    (start_idx end_idx word_count : Nat) : PyDict :=
  let ft := dgetStr base "filing_type" ""
  let ctypes := identify_financial_content_type chunk_text
  let metrics := extract_financial_metrics chunk_text
  let totalMetrics := (metrics.map (fun e => e.2.length)).sum
  let m := base
  let m := dset m "chunk_index" (.i chunk_index)
  let m := dset m "start_word_position" (.i start_idx)
  let m := dset m "end_word_position" (.i end_idx)
  let m := dset m "chunk_word_count" (.i word_count)
  let m := dset m "financial_content_types" (.plist (ctypes.map .s))
  let m := dset m "primary_content_type" (.s (ctypes.headD "general"))
  let m := dset m "financial_metrics"
    (.pdict (metrics.map (fun e => (e.1, PyVal.plist (e.2.map .s)))))
  let m := dset m "financial_metrics_count" (.i totalMetrics)
  let m := dset m "content_quality_score" (.q (calculate_content_quality_score chunk_text ft))
  let m := dset m "section_type" (.s (classify_section_type ctypes ft))
  let m := dset m "financial_concepts" (.plist ((extract_financial_concepts chunk_text).map .s))
  m

/-- `DocumentChunker._enrich_chunk_metadata`: the clock-independent fields
followed by the source attribution (which embeds the wall-clock reading
`now`) and the searchable keywords. -/
def enrich_chunk_metadata (chunk_text : String) (base : PyDict) (chunk_index : Nat)
    (start_idx end_idx word_count : Nat) (now : String) : PyDict :=
  dset
    (dset (enrich_core_fields chunk_text base chunk_index start_idx end_idx word_count)
      "source_attribution" (.pdict (create_source_attribution base chunk_index now)))
    "keywords"
    (.plist ((extract_keywords chunk_text (identify_financial_content_type chunk_text)).map .s))

/-- Zero-padded 4-digit index (`f"{chunk_index:04d}"`). -/
def pad4 (n : Nat) : String :=
  let s := toString n
  (⟨List.replicate (4 - s.data.length) '0'⟩ : String) ++ s

/-- `DocumentChunker._generate_chunk_id`. -/
def generate_chunk_id (base : PyDict) (chunk_index : Nat) : String :=
  dgetStr base "ticker" "UNK" ++ "_" ++ dgetStr base "filing_type" "UNK" ++ "_" ++
    dgetStr base "filing_date" "UNK" ++ "_" ++ pad4 chunk_index

/-! ## document_processing/document_chunker.py — the chunking loop -/

/-- A `DocumentChunk` dataclass instance. -/
structure DocumentChunk where
  content : String
  metadata : PyDict
  chunk_id : String
  start_position : Nat
  end_position : Nat

/-- The advancement rule of `_create_chunks`: next start is
`end - overlap`; if that does not strictly advance, force an advance of
`max(1, chunk_size // 2)`. -/
def next_start_idx (chunk_size : Nat) (overlap : Int) (end_idx start_idx : Nat) : Nat :=
  let nextI : Int := (end_idx : Int) - overlap
  if nextI ≤ (start_idx : Int) then start_idx + max 1 (chunk_size / 2)
  else nextI.toNat

/-- The forced advance makes the start index strictly increase at every
iteration, for every chunk size and every (even negative) overlap. -/
theorem next_start_idx_gt (chunk_size : Nat) (overlap : Int) (end_idx start_idx : Nat) :
    start_idx < next_start_idx chunk_size overlap end_idx start_idx := by
  unfold next_start_idx
  dsimp only
  split
  · have : 1 ≤ max 1 (chunk_size / 2) := le_max_left _ _
    omega
  · rename_i hlt
    push_neg at hlt
    omega

/-- The `while start_idx < len(words)` loop of `_create_chunks`, embedded
with an explicit iteration budget `fuel` (the loop itself has none; the C4
theorem shows the budget `words.length` passed by `create_chunks` is never
exhausted, because the start index strictly increases).  Each iteration
takes the window, stops on a window under 50 rendered characters, and
otherwise emits the enriched chunk and advances.  `clock` gives the
wall-clock timestamp observed when building chunk number `counter`. -/
def create_chunks_loop (chunk_size : Nat) (overlap : Int) (words : List String)
    (base : PyDict) (clock : Nat → String) :
    Nat → Nat → Nat → List DocumentChunk
  | 0, _, _ => []
  | Nat.succ fuel, start_idx, counter =>
    if start_idx < words.length then
      let end_idx := min (start_idx + chunk_size) words.length
      let chunk_words := (words.drop start_idx).take (end_idx - start_idx)
      let chunk_text := joinSpace chunk_words
      if (pyStrip chunk_text).data.length < 50 then []
      else
        { content := chunk_text
          metadata := enrich_chunk_metadata chunk_text base counter start_idx end_idx
            chunk_words.length (clock counter)
          chunk_id := generate_chunk_id base counter
          start_position := start_idx
          end_position := end_idx } ::
        create_chunks_loop chunk_size overlap words base clock fuel
          (next_start_idx chunk_size overlap end_idx start_idx) (counter + 1)
    else []

/-- `DocumentChunker._create_chunks`: empty/blank text gate, the content
validation pipeline, the minimum word count, then the chunking loop with
iteration budget `words.length` (sufficient by the C4 theorem). -/
def create_chunks (chunk_size : Nat) (overlap : Int) (text : String) (base : PyDict)
    (clock : Nat → String) : List DocumentChunk :=
  if text.data.isEmpty || (pyStrip text).data.isEmpty then []
  else if ¬ (validate_filing_content text base).is_valid then []
  else
    let words := pySplit text
    if words.length < 100 then []
    else create_chunks_loop chunk_size overlap words base clock words.length 0 0

/-! ## Helper lemmas about search results -/

/-- The text of a scored result is the candidate chunk's text. -/
theorem result_of_text (db : VectorDB) (qe : List ℚ) (qw : List String) (idx : Nat) :
    (result_of db qe qw idx).text = (db.chunks_data.getD idx default).text := rfl

/-- The metadata of a scored result is the candidate chunk's metadata. -/
theorem result_of_metadata (db : VectorDB) (qe : List ℚ) (qw : List String) (idx : Nat) :
    (result_of db qe qw idx).metadata = (db.chunks_data.getD idx default).metadata := rfl

/-- The semantic score of a scored result. -/
theorem result_of_semantic (db : VectorDB) (qe : List ℚ) (qw : List String) (idx : Nat) :
    (result_of db qe qw idx).semantic_score =
      match (db.chunks_data.getD idx default).embedding with
      | some emb => max 0 (cosine_similarity qe emb)
      | none => 0 := rfl

/-- The keyword score of a scored result. -/
theorem result_of_keyword (db : VectorDB) (qe : List ℚ) (qw : List String) (idx : Nat) :
    (result_of db qe qw idx).keyword_score =
      calc_enhanced_keyword_score (db.chunks_data.getD idx default).text qw := rfl

/-- The similarity of a scored result is the path-weighted combination of
its own semantic and keyword scores. -/
theorem result_of_similarity (db : VectorDB) (qe : List ℚ) (qw : List String) (idx : Nat) :
    (result_of db qe qw idx).similarity =
      if db.use_fallback then
        0.4 * (result_of db qe qw idx).semantic_score +
          0.6 * ((result_of db qe qw idx).keyword_score : ℝ)
      else
        0.7 * (result_of db qe qw idx).semantic_score +
          0.3 * ((result_of db qe qw idx).keyword_score : ℝ) := rfl

/-- Characterization of membership in a search result list: every returned
result is the scored record of some candidate index, and its similarity
exceeds the path threshold. -/
theorem mem_search_iff_of_mem (db : VectorDB) (qe : List ℚ) (query : String)
    (n : Nat) (filters : Option PyDict) (r : SearchResult)
    (hr : r ∈ db.search qe query n filters) :
    ∃ idx ∈ db.candidates filters,
      r = result_of db qe (extract_meaningful_words query) idx ∧
      db.min_threshold < r.similarity := by
  unfold VectorDB.search at hr
  split at hr
  · simp at hr
  · dsimp only at hr
    split at hr
    · simp at hr
    · have hr2 := List.mem_of_mem_take hr
      have hr3 := (List.mergeSort_perm _ _).mem_iff.mp hr2
      rw [List.mem_filterMap] at hr3
      obtain ⟨idx, hidx, hsome⟩ := hr3
      refine ⟨idx, hidx, ?_⟩
      by_cases hth : db.min_threshold < (result_of db qe (extract_meaningful_words query) idx).similarity
      · rw [if_pos hth] at hsome
        cases hsome
        exact ⟨rfl, hth⟩
      · rw [if_neg hth] at hsome
        cases hsome

/-! ## C1 — filtered search returns no false positives -/

/-- The claim's notion of a result satisfying a filter map: every (key,
value) pair of the filter map has the key present in the metadata with the
metadata value equal to the filter value, or a member of it when the filter
value is a list. -/
def FilterSatisfied (F : PyDict) (md : PyDict) : Prop :=
  ∀ p ∈ F, ∃ mv, dget md p.1 = some mv ∧
    (match p.2 with
     | .plist vs => ∃ x ∈ vs, PyVal.beq mv x = true
     | v => PyVal.beq mv v = true)

/-- The code's filter match implies the claim's satisfaction predicate. -/
theorem filterSatisfied_of_matchesFilters (F md : PyDict)
    (h : matchesFilters F md = true) : FilterSatisfied F md := by
  intro p hp
  unfold matchesFilters at h
  rw [List.all_eq_true] at h
  have hpair := h p hp
  unfold filterPairMatches at hpair
  cases hmv : dget md p.1 with
  | none => rw [hmv] at hpair; cases hpair
  | some mv =>
    rw [hmv] at hpair
    refine ⟨mv, rfl, ?_⟩
    cases hv : p.2 <;> rw [hv] at hpair <;> simp_all [List.any_eq_true]

/-- Indices produced by `apply_filters` point at chunks whose metadata
matches the filters (or the filters are empty). -/
theorem matches_of_mem_apply_filters (db : VectorDB) (F : PyDict) (idx : Nat)
    (h : idx ∈ db.apply_filters F) :
    F = [] ∨ matchesFilters F (db.chunks_data.getD idx default).metadata = true := by
  unfold VectorDB.apply_filters at h
  split at h
  · left
    rename_i hF
    exact List.isEmpty_iff.mp hF
  · right
    exact (List.mem_filter.mp h).2

/-- C1: for every filter map F and every store state, every result of
`search(query, n_results, F)` and of `search_by_metadata(F, n_results)`
has metadata satisfying F exactly — each filter key is present and the
metadata value equals the filter value (or is a member of a list-valued
filter); no false positives. -/
theorem search_no_false_positives (db : VectorDB) (qe : List ℚ) (query : String)
    (n : Nat) (F : PyDict) :
    (∀ r ∈ db.search qe query n (some F), FilterSatisfied F r.metadata) ∧
    (∀ r ∈ db.search_by_metadata F n, FilterSatisfied F r.metadata) := by
  constructor
  · intro r hr
    obtain ⟨idx, hidx, hre, _⟩ := mem_search_iff_of_mem db qe query n (some F) r hr
    have hidx2 : idx ∈ db.apply_filters F := hidx
    rcases matches_of_mem_apply_filters db F idx hidx2 with hF | hm
    · subst hF
      intro p hp
      cases hp
    · subst hre
      rw [result_of_metadata]
      exact filterSatisfied_of_matchesFilters _ _ hm
  · intro r hr
    unfold VectorDB.search_by_metadata at hr
    rw [List.mem_map] at hr
    obtain ⟨idx, hidx, hre⟩ := hr
    have hidx2 : idx ∈ db.apply_filters F := List.mem_of_mem_take hidx
    rcases matches_of_mem_apply_filters db F idx hidx2 with hF | hm
    · subst hF
      intro p hp
      cases hp
    · subst hre
      exact filterSatisfied_of_matchesFilters _ _ hm

/-! ## C9 — cosine similarity is total and guards zero norms -/

/-- C9: the cosine-similarity helper returns a value for every pair of
vectors (it is a total function; the `try/except` and the explicit norm
check are modelled by the two guards), and it returns exactly 0 whenever
either argument has zero norm — scoring never divides by zero. -/
theorem cosine_similarity_zero_norm (v1 v2 : List ℚ)
    (h : normR v1 = 0 ∨ normR v2 = 0) : cosine_similarity v1 v2 = 0 := by
  rcases h with h | h <;> simp [cosine_similarity, h]

/-- Witness for C9: the all-zero vector an unfitted fallback embedder
produces has zero norm, and cosine similarity against it is exactly 0. -/
theorem cosine_similarity_zero_norm_witness :
    normR [0, 0] = 0 ∧ cosine_similarity [0, 0] [1, 2] = 0 := by
  have h0 : normR [0, 0] = 0 := by
    unfold normR sumSqQ
    norm_num
  exact ⟨h0, cosine_similarity_zero_norm [0, 0] [1, 2] (Or.inl h0)⟩

/-! ## Concrete fixture store for the search witnesses -/

/-- A one-chunk store on the fallback path; the chunk has no stored
embedding, so its semantic score is 0 and scoring is purely lexical. -/
def chunk0 : ChunkRec :=
  { text := "apple revenue growth", metadata := [("ticker", .s "AAPL")],
    chunk_id := "AAPL_10-K_20230930_0000", embedding := none, added_date := "D" }

/-- The fixture store holding `chunk0`. -/
def db0 : VectorDB :=
  { chunks_data := [chunk0], metadata_index := [], use_fallback := true,
    storage_path := "store/sec_filings.pkl", collection_name := "sec_filings" }

/-- The result `db0` returns for the query "revenue". -/
def res0 : SearchResult :=
  ⟨"apple revenue growth", [("ticker", .s "AAPL")], "AAPL_10-K_20230930_0000",
    0.4 * 0 + 0.6 * ((1 : ℚ) : ℝ), 0, 1⟩

/-- The keyword score of the fixture chunk for the query word "revenue". -/
theorem chunk0_keyword_score :
    calc_enhanced_keyword_score "apple revenue growth" ["revenue"] = 1 := by
  unfold calc_enhanced_keyword_score
  norm_num [show strContains (" " ++ lowerStr "apple revenue growth" ++ " ")
    (" " ++ "revenue" ++ " ") = true from by decide]

/-- Evaluation of the fixture search without filters. -/
theorem db0_search_eval : db0.search [] "revenue" 10 none = [res0] := by
  unfold VectorDB.search
  simp only [db0, chunk0, VectorDB.candidates, VectorDB.min_threshold,
    show extract_meaningful_words "revenue" = ["revenue"] from by decide,
    show List.range 1 = [0] from by decide, List.filterMap, chunk0_keyword_score]
  norm_num [List.filterMap, result_of, chunk0, chunk0_keyword_score,
    List.mergeSort_singleton, res0]

/-- The fixture filter map. -/
def filters0 : PyDict := [("ticker", PyVal.s "AAPL")]

/-- The fixture chunk matches the fixture filters. -/
theorem db0_matches : matchesFilters filters0 chunk0.metadata = true := by
  simp [matchesFilters, filterPairMatches, dget, PyVal.beq, filters0, chunk0]

/-- Evaluation of the fixture search with the ticker filter. -/
theorem db0_search_filtered_eval :
    db0.search [] "revenue" 10 (some filters0) = [res0] := by
  unfold VectorDB.search
  have hcand : db0.candidates (some filters0) = [0] := by
    simp [VectorDB.candidates, VectorDB.apply_filters, db0, chunk0, filters0,
      matchesFilters, filterPairMatches, dget, PyVal.beq,
      show List.range 1 = [0] from by decide]
  simp only [hcand]
  simp only [db0, chunk0, VectorDB.min_threshold,
    show extract_meaningful_words "revenue" = ["revenue"] from by decide, List.filterMap,
    chunk0_keyword_score]
  norm_num [List.filterMap, result_of, chunk0, chunk0_keyword_score,
    List.mergeSort_singleton, res0]

/-- Witness for C1: the fixture search with the ticker filter returns
`res0`, and the theorem instantiates to show its metadata satisfies the
filter map. -/
theorem search_no_false_positives_witness :
    res0 ∈ db0.search [] "revenue" 10 (some filters0) ∧
      FilterSatisfied filters0 res0.metadata := by
  have hmem : res0 ∈ db0.search [] "revenue" 10 (some filters0) := by
    rw [db0_search_filtered_eval]
    exact List.mem_singleton.mpr rfl
  exact ⟨hmem, (search_no_false_positives db0 [] "revenue" 10 filters0).1 res0 hmem⟩

/-! ## Cauchy–Schwarz infrastructure for the score bounds (C3) -/

/-- The zipWith dot product as a sum over the common index range. -/
theorem zipWith_mul_sum_eq (v : List ℚ) :
    ∀ w : List ℚ, (List.zipWith (fun x y => x * y) v w).sum =
      ∑ i ∈ Finset.range (min v.length w.length), v.getD i 0 * w.getD i 0 := by
  induction v with
  | nil => intro w; simp
  | cons a v ih =>
    intro w
    cases w with
    | nil => simp
    | cons b w =>
      simp only [List.zipWith, List.sum_cons, List.length_cons]
      rw [Nat.succ_min_succ, Finset.sum_range_succ']
      simp only [List.getD_cons_succ, List.getD_cons_zero]
      rw [ih w]
      ring

/-- The sum of squares as a sum of squares over the index range. -/
theorem sumSqQ_eq_sum_range (v : List ℚ) :
    sumSqQ v = ∑ i ∈ Finset.range v.length, (v.getD i 0) ^ 2 := by
  induction v with
  | nil => simp [sumSqQ]
  | cons a v ih =>
    simp only [sumSqQ, List.map_cons, List.sum_cons, List.length_cons]
    rw [Finset.sum_range_succ']
    simp only [List.getD_cons_succ, List.getD_cons_zero]
    unfold sumSqQ at ih
    rw [ih]
    ring

/-- Sums of squares are nonnegative. -/
theorem sumSqQ_nonneg (v : List ℚ) : 0 ≤ sumSqQ v := by
  rw [sumSqQ_eq_sum_range]
  exact Finset.sum_nonneg (fun i _ => sq_nonneg _)

/-- Cauchy–Schwarz for the list dot product. -/
theorem dotQ_sq_le (v w : List ℚ) : (dotQ v w) ^ 2 ≤ sumSqQ v * sumSqQ w := by
  unfold dotQ
  rw [zipWith_mul_sum_eq]
  have hcs := Finset.sum_mul_sq_le_sq_mul_sq (Finset.range (min v.length w.length))
    (fun i => v.getD i 0) (fun i => w.getD i 0)
  refine le_trans hcs ?_
  have hv : ∑ i ∈ Finset.range (min v.length w.length), (v.getD i 0) ^ 2 ≤ sumSqQ v := by
    rw [sumSqQ_eq_sum_range]
    exact Finset.sum_le_sum_of_subset_of_nonneg
      (Finset.range_subset.mpr (Nat.min_le_left _ _)) (fun i _ _ => sq_nonneg _)
  have hw : ∑ i ∈ Finset.range (min v.length w.length), (w.getD i 0) ^ 2 ≤ sumSqQ w := by
    rw [sumSqQ_eq_sum_range]
    exact Finset.sum_le_sum_of_subset_of_nonneg
      (Finset.range_subset.mpr (Nat.min_le_right _ _)) (fun i _ _ => sq_nonneg _)
  have h2 : (0 : ℚ) ≤ ∑ i ∈ Finset.range (min v.length w.length), (w.getD i 0) ^ 2 :=
    Finset.sum_nonneg (fun i _ => sq_nonneg _)
  calc (∑ i ∈ Finset.range (min v.length w.length), (v.getD i 0) ^ 2) *
        ∑ i ∈ Finset.range (min v.length w.length), (w.getD i 0) ^ 2
      ≤ sumSqQ v * ∑ i ∈ Finset.range (min v.length w.length), (w.getD i 0) ^ 2 :=
        mul_le_mul_of_nonneg_right hv h2
    _ ≤ sumSqQ v * sumSqQ w := mul_le_mul_of_nonneg_left hw (sumSqQ_nonneg v)

/-- Norms are nonnegative. -/
theorem normR_nonneg (v : List ℚ) : 0 ≤ normR v := Real.sqrt_nonneg _

/-- Cosine similarity never exceeds 1. -/
theorem cosine_similarity_le_one (v w : List ℚ) : cosine_similarity v w ≤ 1 := by
  unfold cosine_similarity
  split
  · norm_num
  · split
    · norm_num
    · rename_i hne hz
      push_neg at hz
      have hv0 : (0 : ℝ) < normR v := lt_of_le_of_ne (normR_nonneg v) (Ne.symm hz.1)
      have hw0 : (0 : ℝ) < normR w := lt_of_le_of_ne (normR_nonneg w) (Ne.symm hz.2)
      rw [div_le_one (by positivity)]
      have hvq : (0 : ℝ) ≤ ((sumSqQ v : ℚ) : ℝ) := by
        exact_mod_cast sumSqQ_nonneg v
      have hwq : (0 : ℝ) ≤ ((sumSqQ w : ℚ) : ℝ) := by
        exact_mod_cast sumSqQ_nonneg w
      have hmul : normR v * normR w = Real.sqrt (((sumSqQ v : ℚ) : ℝ) * ((sumSqQ w : ℚ) : ℝ)) := by
        unfold normR
        rw [← Real.sqrt_mul hvq]
      have hsq : ((dotQ v w : ℚ) : ℝ) ^ 2 ≤ ((sumSqQ v : ℚ) : ℝ) * ((sumSqQ w : ℚ) : ℝ) := by
        have := dotQ_sq_le v w
        have hcast : (((dotQ v w) ^ 2 : ℚ) : ℝ) ≤ ((sumSqQ v * sumSqQ w : ℚ) : ℝ) := by
          exact_mod_cast this
        push_cast at hcast
        exact hcast
      calc ((dotQ v w : ℚ) : ℝ) ≤ |((dotQ v w : ℚ) : ℝ)| := le_abs_self _
        _ = Real.sqrt (((dotQ v w : ℚ) : ℝ) ^ 2) := (Real.sqrt_sq_eq_abs _).symm
        _ ≤ Real.sqrt (((sumSqQ v : ℚ) : ℝ) * ((sumSqQ w : ℚ) : ℝ)) := Real.sqrt_le_sqrt hsq
        _ = normR v * normR w := hmul.symm

/-- The keyword score always lies in [0, 1]. -/
theorem keyword_score_mem_unit (text : String) (qw : List String) :
    0 ≤ calc_enhanced_keyword_score text qw ∧ calc_enhanced_keyword_score text qw ≤ 1 := by
  unfold calc_enhanced_keyword_score
  split
  · norm_num
  · rename_i hne
    constructor
    · refine le_min (by norm_num) ?_
      have hlen : (0 : ℚ) < ((qw.length : ℚ)) := by
        have : qw ≠ [] := by
          intro h
          rw [h] at hne
          exact hne rfl
        have : 0 < qw.length := List.length_pos.mpr this
        exact_mod_cast this
      positivity
    · exact min_le_left _ _

/-- Every scored result's semantic score lies in [0, 1]. -/
theorem result_of_semantic_mem_unit (db : VectorDB) (qe : List ℚ) (qw : List String)
    (idx : Nat) : 0 ≤ (result_of db qe qw idx).semantic_score ∧
      (result_of db qe qw idx).semantic_score ≤ 1 := by
  rw [result_of_semantic]
  cases (db.chunks_data.getD idx default).embedding with
  | none => norm_num
  | some emb =>
    constructor
    · exact le_max_left 0 _
    · exact max_le (by norm_num) (cosine_similarity_le_one qe emb)

/-- Every scored result's combined similarity lies in [0, 1]. -/
theorem result_of_similarity_mem_unit (db : VectorDB) (qe : List ℚ) (qw : List String)
    (idx : Nat) : 0 ≤ (result_of db qe qw idx).similarity ∧
      (result_of db qe qw idx).similarity ≤ 1 := by
  have hs := result_of_semantic_mem_unit db qe qw idx
  have hkq := keyword_score_mem_unit (db.chunks_data.getD idx default).text qw
  have hk0 : (0 : ℝ) ≤ ((result_of db qe qw idx).keyword_score : ℝ) := by
    rw [result_of_keyword]
    exact_mod_cast hkq.1
  have hk1 : ((result_of db qe qw idx).keyword_score : ℝ) ≤ 1 := by
    rw [result_of_keyword]
    exact_mod_cast hkq.2
  rw [result_of_similarity]
  split <;> constructor <;> nlinarith [hs.1, hs.2, hk0, hk1]

/-- The search output is sorted by non-increasing similarity (shared by
the ranking claims). -/
theorem search_sorted (db : VectorDB) (qe : List ℚ) (query : String) (n : Nat)
    (filters : Option PyDict) :
    (db.search qe query n filters).Pairwise (fun a b => b.similarity ≤ a.similarity) := by
  unfold VectorDB.search
  split
  · simp
  · dsimp only
    split
    · simp
    · refine List.Pairwise.sublist (List.take_sublist _ _) ?_
      have htrans : ∀ a b c : SearchResult,
          (fun a b : SearchResult => decide (b.similarity ≤ a.similarity)) a b = true →
          (fun a b : SearchResult => decide (b.similarity ≤ a.similarity)) b c = true →
          (fun a b : SearchResult => decide (b.similarity ≤ a.similarity)) a c = true := by
        intro a b c hab hbc
        simp only [decide_eq_true_eq] at hab hbc ⊢
        exact le_trans hbc hab
      have htotal : ∀ a b : SearchResult,
          ((fun a b : SearchResult => decide (b.similarity ≤ a.similarity)) a b ||
           (fun a b : SearchResult => decide (b.similarity ≤ a.similarity)) b a) = true := by
        intro a b
        simp only [Bool.or_eq_true, decide_eq_true_eq]
        exact le_total _ _
      exact (List.sorted_mergeSort htrans htotal _).imp (fun h => of_decide_eq_true h)

/-- The search output never exceeds the requested number of results. -/
theorem search_length_le (db : VectorDB) (qe : List ℚ) (query : String) (n : Nat)
    (filters : Option PyDict) : (db.search qe query n filters).length ≤ n := by
  unfold VectorDB.search
  split
  · simp
  · dsimp only
    split
    · simp
    · exact List.length_take_le _ _

/-! ## C3 — combined scores lie in [0, 1] and results are sorted -/

/-- C3: for every query, store state and filter map, every combined
similarity attached to a search result lies in the closed interval [0, 1],
and the returned list is ordered by non-increasing combined score. -/
theorem search_scores_unit_interval_sorted (db : VectorDB) (qe : List ℚ)
    (query : String) (n : Nat) (filters : Option PyDict) :
    (∀ r ∈ db.search qe query n filters, 0 ≤ r.similarity ∧ r.similarity ≤ 1) ∧
    (db.search qe query n filters).Pairwise (fun a b => b.similarity ≤ a.similarity) := by
  constructor
  · intro r hr
    obtain ⟨idx, _, hre, _⟩ := mem_search_iff_of_mem db qe query n filters r hr
    subst hre
    exact result_of_similarity_mem_unit db qe _ idx
  · exact search_sorted db qe query n filters

/-- Witness for C3: the fixture search returns `res0` with combined score
0.6, which the theorem places in [0, 1]. -/
theorem search_scores_unit_interval_sorted_witness :
    0 ≤ res0.similarity ∧ res0.similarity ≤ 1 := by
  have hmem : res0 ∈ db0.search [] "revenue" 10 none := by
    rw [db0_search_eval]
    exact List.mem_singleton.mpr rfl
  exact (search_scores_unit_interval_sorted db0 [] "revenue" 10 none).1 res0 hmem

/-! ## C2 — path-dependent weights, thresholds, sorting and truncation -/

/-- C2: every returned result's combined score is the path-weighted
combination of its semantic and keyword scores (0.4/0.6 with threshold
0.05 on the fallback path, 0.7/0.3 with threshold 0.1 on the primary
path) and exceeds the path threshold; every candidate whose combined
score falls below the threshold is dropped; the output is sorted by
non-increasing score and truncated to the requested limit. -/
theorem search_path_weights_threshold (db : VectorDB) (qe : List ℚ) (query : String)
    (n : Nat) (filters : Option PyDict) :
    (∀ r ∈ db.search qe query n filters,
      (db.use_fallback = true →
        r.similarity = 0.4 * r.semantic_score + 0.6 * (r.keyword_score : ℝ) ∧
        (0.05 : ℝ) < r.similarity) ∧
      (db.use_fallback = false →
        r.similarity = 0.7 * r.semantic_score + 0.3 * (r.keyword_score : ℝ) ∧
        (0.1 : ℝ) < r.similarity)) ∧
    (∀ idx ∈ db.candidates filters,
      (result_of db qe (extract_meaningful_words query) idx).similarity < db.min_threshold →
      result_of db qe (extract_meaningful_words query) idx ∉ db.search qe query n filters) ∧
    (db.search qe query n filters).Pairwise (fun a b => b.similarity ≤ a.similarity) ∧
    (db.search qe query n filters).length ≤ n := by
  refine ⟨?_, ?_, search_sorted db qe query n filters, search_length_le db qe query n filters⟩
  · intro r hr
    obtain ⟨idx, _, hre, hthr⟩ := mem_search_iff_of_mem db qe query n filters r hr
    constructor
    · intro hfb
      constructor
      · rw [hre, result_of_similarity, if_pos hfb]
      · have : db.min_threshold = 0.05 := by
          unfold VectorDB.min_threshold
          rw [if_pos hfb]
        rw [← this]
        exact hthr
    · intro hfb
      constructor
      · rw [hre, result_of_similarity, if_neg (by rw [hfb]; exact Bool.false_ne_true)]
      · have : db.min_threshold = 0.1 := by
          unfold VectorDB.min_threshold
          rw [if_neg (by rw [hfb]; exact Bool.false_ne_true)]
        rw [← this]
        exact hthr
  · intro idx _ hlt hmem
    obtain ⟨idx2, _, hre, hthr⟩ := mem_search_iff_of_mem db qe query n filters _ hmem
    exact absurd hthr (not_lt.mpr (le_of_lt hlt))

/-- Witness for C2: on the fallback-path fixture store the returned
result's score is 0.4 · semantic + 0.6 · keyword and exceeds 0.05. -/
theorem search_path_weights_threshold_witness :
    res0.similarity = 0.4 * res0.semantic_score + 0.6 * (res0.keyword_score : ℝ) ∧
      (0.05 : ℝ) < res0.similarity := by
  have hmem : res0 ∈ db0.search [] "revenue" 10 none := by
    rw [db0_search_eval]
    exact List.mem_singleton.mpr rfl
  exact ((search_path_weights_threshold db0 [] "revenue" 10 none).1 res0 hmem).1 rfl

/-! ## C6 — snapshot persistence is a direct overwrite, not temp-then-rename -/

/-- A fixture prior snapshot on disk. -/
def oldSnap : Snapshot := ⟨[], [], "sec_filings", "2024-01-01T00:00:00"⟩

/-- A fixture new snapshot being saved. -/
def newSnap : Snapshot := ⟨[chunk0], [], "sec_filings", "2024-01-02T00:00:00"⟩

/-- A fixture disk holding the prior snapshot at the storage path. -/
def disk0 : Disk := fun p =>
  if p = "store/sec_filings.pkl" then some (.good oldSnap) else none

/-- Counterexample to C6: `_save_to_disk` performs no rename and touches no
temporary path — it truncates the storage path in place and writes into it
— so after the first operation (the `open(..., 'wb')`) the previously
persisted snapshot is already destroyed: a failure at that point leaves a
truncated file, not the intact prior snapshot. -/
theorem save_to_disk_truncates_in_place :
    (∀ op ∈ save_to_disk_ops "store/sec_filings.pkl" newSnap,
      op.isRenameOp = false ∧ op.target = "store/sec_filings.pkl") ∧
    applyFsOps disk0 ((save_to_disk_ops "store/sec_filings.pkl" newSnap).take 1)
      "store/sec_filings.pkl" = some .truncated ∧
    some FileContent.truncated ≠ some (FileContent.good oldSnap) := by
  refine ⟨?_, ?_, ?_⟩
  · intro op hop
    simp only [save_to_disk_ops, List.mem_cons, List.mem_singleton] at hop
    rcases hop with h | h | h
    · subst h; exact ⟨rfl, rfl⟩
    · subst h; exact ⟨rfl, rfl⟩
    · cases h
  · simp [save_to_disk_ops, applyFsOps, applyFsOp, disk0]
  · simp

/-- C6 (amended): a completed save leaves the new snapshot at the storage
path, but the write is direct — every operation targets the storage path
itself, none is a rename — and the crash prefix after the in-place
truncation leaves the file unreadable, so the prior snapshot does not
survive a mid-save failure. -/
theorem save_to_disk_direct_write (d : Disk) (path : String) (snap : Snapshot) :
    applyFsOps d (save_to_disk_ops path snap) path = some (.good snap) ∧
    (∀ op ∈ save_to_disk_ops path snap, op.isRenameOp = false ∧ op.target = path) ∧
    applyFsOps d ((save_to_disk_ops path snap).take 1) path = some .truncated := by
  refine ⟨?_, ?_, ?_⟩
  · simp [save_to_disk_ops, applyFsOps, applyFsOp]
  · intro op hop
    simp only [save_to_disk_ops, List.mem_cons, List.mem_singleton] at hop
    rcases hop with h | h | h
    · subst h; exact ⟨rfl, rfl⟩
    · subst h; exact ⟨rfl, rfl⟩
    · cases h
  · simp [save_to_disk_ops, applyFsOps, applyFsOp]

/-! ## C10 — reset keeps the snapshot on disk, delete removes it -/

/-- C10: `reset_collection` empties only the in-memory record list and
metadata index and leaves the disk unchanged, so a fresh store bound to
the same path reloads the pre-reset records, while `delete_collection`
also removes the snapshot file. -/
theorem reset_keeps_disk_delete_removes (db : VectorDB) (d : Disk) (snap : Snapshot)
    (h : d db.storage_path = some (.good snap))
    (hsync : snap.chunks_data = db.chunks_data) :
    (db.reset_collection d).2 = d ∧
    (db.reset_collection d).1.chunks_data = [] ∧
    (db.reset_collection d).1.metadata_index = [] ∧
    (newVectorDB (db.reset_collection d).2 db.collection_name db.storage_path
      db.use_fallback).chunks_data = db.chunks_data ∧
    (db.delete_collection d).2 db.storage_path = none := by
  refine ⟨rfl, rfl, rfl, ?_, ?_⟩
  · show (load_from_disk d db.storage_path).1 = db.chunks_data
    unfold load_from_disk
    rw [h]
    exact hsync
  · show (if db.storage_path = db.storage_path then none else d db.storage_path) = none
    rw [if_pos rfl]

/-- Fixture in-sync snapshot for the C10 witness. -/
def snap0 : Snapshot := ⟨[chunk0], [], "sec_filings", "2024-01-01T00:00:00"⟩

/-- Fixture disk holding the snapshot of `db0` at its storage path. -/
def disk1 : Disk := fun p =>
  if p = "store/sec_filings.pkl" then some (.good snap0) else none

/-- Witness for C10: after resetting `db0`, a fresh store bound to the same
disk reloads the one pre-reset record, and deleting removes the file. -/
theorem reset_keeps_disk_delete_removes_witness :
    (newVectorDB (db0.reset_collection disk1).2 db0.collection_name db0.storage_path
      db0.use_fallback).chunks_data = db0.chunks_data ∧
    (db0.delete_collection disk1).2 db0.storage_path = none := by
  have h := reset_keeps_disk_delete_removes db0 disk1 snap0
    (by simp [disk1, db0]) rfl
  exact ⟨h.2.2.2.1, h.2.2.2.2⟩

/-! ## C8 — query routing priority -/

/-- A fixture entity map with two tickers and a temporal comparison. -/
def entCmpTemporal : Entities :=
  { tickers := ["AAPL", "MSFT"], time_periods := ⟨[], []⟩, filing_types := [],
    financial_concepts := [], comparison_intent := ⟨true, some "temporal"⟩ }

/-- Counterexample to C8: an entity map with more than one ticker and
comparison intent is NOT always routed to the multi-entity policy — when
the extracted comparison type is "temporal" (a comparison keyword together
with "trend"/"over time"), the router returns the temporal policy. -/
theorem temporal_comparison_not_multi_company :
    determine_query_type entCmpTemporal = QueryType.temporal_analysis ∧
    determine_query_type entCmpTemporal ≠ QueryType.multi_company := by
  constructor
  · decide
  · decide

/-- C8 (amended): the query shape is a pure function of the extracted
entities, evaluated in the fixed priority order
multi-entity-or-comparison → temporal → single-entity → thematic →
generic; the first branch routes to the multi-company policy unless the
comparison type is "temporal", in which case it routes to the temporal
policy. -/
theorem determine_query_type_priority (e : Entities) :
    (1 < e.tickers.length ∨ e.comparison_intent.is_comparison = true →
      (e.comparison_intent.comparison_type = some "temporal" →
        determine_query_type e = .temporal_analysis) ∧
      (e.comparison_intent.comparison_type ≠ some "temporal" →
        determine_query_type e = .multi_company)) ∧
    (e.tickers.length = 1 → e.comparison_intent.is_comparison = false →
      ((e.time_periods.years ≠ [] ∨ e.time_periods.relative_terms ≠ []) →
        determine_query_type e = .temporal_analysis) ∧
      (e.time_periods.years = [] → e.time_periods.relative_terms = [] →
        determine_query_type e = .single_company)) ∧
    (e.tickers = [] → e.comparison_intent.is_comparison = false →
      (e.financial_concepts ≠ [] → determine_query_type e = .cross_sectional) ∧
      (e.financial_concepts = [] → determine_query_type e = .general_search)) := by
  refine ⟨?_, ?_, ?_⟩
  · intro h1
    have hc : (e.tickers.length > 1 || e.comparison_intent.is_comparison) = true := by
      rcases h1 with h | h
      · simp [h]
      · simp [h]
    constructor
    · intro ht
      unfold determine_query_type
      rw [if_pos hc, if_pos ht]
    · intro ht
      unfold determine_query_type
      rw [if_pos hc, if_neg ht]
  · intro hlen hcmp
    have hc : (e.tickers.length > 1 || e.comparison_intent.is_comparison) = false := by
      simp [hlen, hcmp]
    constructor
    · intro hy
      unfold determine_query_type
      rw [if_neg (by simp [hc])]
      rw [if_pos ?_]
      simp only [Bool.and_eq_true, Bool.or_eq_true, decide_eq_true_eq]
      refine ⟨hlen, ?_⟩
      rcases hy with h | h
      · left
        simpa [List.isEmpty_iff] using h
      · right
        simpa [List.isEmpty_iff] using h
    · intro hy hr
      unfold determine_query_type
      rw [if_neg (by simp [hc])]
      rw [if_neg ?_]
      rw [if_pos (by simp [hlen])]
      simp [hy, hr]
  · intro htk hcmp
    have hc : (e.tickers.length > 1 || e.comparison_intent.is_comparison) = false := by
      simp [htk, hcmp]
    constructor
    · intro hfc
      unfold determine_query_type
      rw [if_neg (by simp [hc]), if_neg (by simp [htk]), if_neg (by simp [htk])]
      rw [if_pos (by simpa [List.isEmpty_iff] using hfc)]
    · intro hfc
      unfold determine_query_type
      rw [if_neg (by simp [hc]), if_neg (by simp [htk]), if_neg (by simp [htk])]
      rw [if_neg (by simp [hfc])]

/-- Witness for C8 (amended): two tickers with a non-temporal comparison
route to the multi-company policy. -/
theorem determine_query_type_priority_witness :
    determine_query_type
      { tickers := ["AAPL", "MSFT"], time_periods := ⟨[], []⟩, filing_types := [],
        financial_concepts := [], comparison_intent := ⟨true, some "cross_company"⟩ } =
      QueryType.multi_company := by
  exact ((determine_query_type_priority _).1 (by norm_num)).2 (by decide)

/-! ## C7 — single-text embedding on an unfitted fallback provider -/

/-- Sums of squares of real vectors are nonnegative. -/
theorem sumSqR_nonneg (v : List ℝ) : 0 ≤ sumSqR v := by
  unfold sumSqR
  induction v with
  | nil => simp
  | cons a v ih =>
    simp only [List.map_cons, List.sum_cons]
    have := mul_self_nonneg a
    linarith

/-- A real vector with zero sum of squares is the zero vector. -/
theorem eq_zeroVec_of_sumSqR_eq_zero (v : List ℝ) (h : sumSqR v = 0) :
    v = zeroVec v.length := by
  induction v with
  | nil => rfl
  | cons a v ih =>
    have hv : 0 ≤ sumSqR v := sumSqR_nonneg v
    have ha : 0 ≤ a * a := mul_self_nonneg a
    have hsum : a * a + sumSqR v = 0 := by
      unfold sumSqR at h ⊢
      simpa using h
    have hvz : sumSqR v = 0 := by linarith
    have haz : a = 0 := mul_self_eq_zero.mp (by linarith)
    subst haz
    simp only [zeroVec, List.length_cons, List.replicate_succ, List.cons.injEq, true_and]
    simpa [zeroVec] using ih hvz

/-- Dividing a vector by `n` divides its sum of squares by `n²`. -/
theorem sumSqR_map_div (v : List ℝ) (n : ℝ) :
    sumSqR (v.map (fun x => x / n)) = sumSqR v / n ^ 2 := by
  induction v with
  | nil => simp [sumSqR]
  | cons a v ih =>
    unfold sumSqR at ih ⊢
    simp only [List.map_cons, List.sum_cons]
    rw [ih]
    ring

/-- C7: on a fallback-path provider that has not yet been fitted,
generating a single embedding never raises: it either returns the
documented all-zero vector of dimension 384, or triggers the
fit-on-single-text path and returns an L2-normalized 384-vector from the
freshly fitted pipeline. -/
theorem generate_single_embedding_total (g : EmbGen) (text : String)
    (hfb : g.use_fallback = true) (hnf : g.is_fitted = false)
    (hdim : ∀ ts f rows, g.sk.fitBatch ts = some (f, rows) →
      ∀ s v, f.transform s = some v → v.length = 384) :
    (generate_single_embedding g text).1 = zeroVec 384 ∨
    ((generate_single_embedding g text).2.is_fitted = true ∧
      sumSqR (generate_single_embedding g text).1 = 1 ∧
      (generate_single_embedding g text).1.length = 384) := by
  unfold generate_single_embedding
  rw [if_pos (by rw [hfb])]
  unfold generate_fallback_embeddings
  rw [if_pos (by rw [hnf]; exact Bool.false_ne_true)]
  rw [if_neg (by rw [hnf]; simp)]
  cases hfit : g.sk.fitBatch ([text].map preprocess_financial_text) with
  | none => left; rfl
  | some p =>
    obtain ⟨f, rows⟩ := p
    dsimp only
    cases htr : f.transform (preprocess_financial_text text) with
    | none => left; rfl
    | some emb =>
      dsimp only
      have hlen : emb.length = 384 := hdim _ f rows hfit _ emb htr
      by_cases hn : (0 : ℝ) < Real.sqrt (sumSqR emb)
      · right
        rw [if_pos hn]
        refine ⟨rfl, ?_, by simpa using hlen⟩
        have hs0 : 0 ≤ sumSqR emb := sumSqR_nonneg emb
        have hsq : Real.sqrt (sumSqR emb) ^ 2 = sumSqR emb := Real.sq_sqrt hs0
        have hne : sumSqR emb ≠ 0 := by
          intro h0
          rw [h0, Real.sqrt_zero] at hn
          exact lt_irrefl 0 hn
        rw [sumSqR_map_div, hsq]
        exact div_self hne
      · left
        rw [if_neg hn]
        have h0 : Real.sqrt (sumSqR emb) = 0 :=
          le_antisymm (not_lt.mp hn) (Real.sqrt_nonneg _)
        have hz : sumSqR emb = 0 := by
          have hs0 : 0 ≤ sumSqR emb := sumSqR_nonneg emb
          have := Real.sqrt_eq_zero hs0
          exact this.mp h0
        rw [eq_zeroVec_of_sumSqR_eq_zero emb hz, hlen]

/-- A fallback provider whose sklearn fit always raises. -/
def embFailGen : EmbGen :=
  { use_fallback := true, is_fitted := false, sk := ⟨fun _ => none⟩,
    fitted := none, encode := fun _ => [] }

/-- Witness for C7: with a fit oracle that always raises, the single-text
embedding of "apple" is still returned — as the zero vector of dimension
384 or a fitted unit vector (here the former branch of the theorem). -/
theorem generate_single_embedding_total_witness :
    (generate_single_embedding embFailGen "apple").1 = zeroVec 384 ∨
    ((generate_single_embedding embFailGen "apple").2.is_fitted = true ∧
      sumSqR (generate_single_embedding embFailGen "apple").1 = 1 ∧
      (generate_single_embedding embFailGen "apple").1.length = 384) :=
  generate_single_embedding_total embFailGen "apple" rfl rfl
    (by intro ts f rows h; cases h)

/-! ## C4 — the chunking loop terminates within the document's word count -/

/-- Each loop iteration consumes one unit of budget, so the chunk count is
bounded by the budget. -/
theorem create_chunks_loop_length_le (chunk_size : Nat) (overlap : Int)
    (words : List String) (base : PyDict) (clock : Nat → String) :
    ∀ fuel start_idx counter,
      (create_chunks_loop chunk_size overlap words base clock fuel start_idx counter).length
        ≤ fuel := by
  intro fuel
  induction fuel with
  | zero => intro s c; simp [create_chunks_loop]
  | succ fuel ih =>
    intro s c
    simp only [create_chunks_loop]
    split
    · split
      · simp
      · simp only [List.length_cons]
        exact Nat.succ_le_succ (ih _ _)
    · simp

/-- Once the budget covers the remaining distance to the end of the word
list, the loop's output no longer depends on the budget: the loop exits by
its own conditions.  This is the termination bound — at most
`words.length - start_idx` iterations ever run, because the start index
strictly increases. -/
theorem create_chunks_loop_fuel_stable (chunk_size : Nat) (overlap : Int)
    (words : List String) (base : PyDict) (clock : Nat → String) :
    ∀ fuel1 fuel2 start_idx counter,
      words.length - start_idx ≤ fuel1 → words.length - start_idx ≤ fuel2 →
      create_chunks_loop chunk_size overlap words base clock fuel1 start_idx counter =
      create_chunks_loop chunk_size overlap words base clock fuel2 start_idx counter := by
  intro fuel1
  induction fuel1 with
  | zero =>
    intro fuel2 s c h1 h2
    have hs : words.length ≤ s := by omega
    cases fuel2 with
    | zero => rfl
    | succ fuel2 =>
      simp only [create_chunks_loop]
      rw [if_neg (by omega)]
  | succ fuel1 ih =>
    intro fuel2 s c h1 h2
    cases fuel2 with
    | zero =>
      have hs : words.length ≤ s := by omega
      simp only [create_chunks_loop]
      rw [if_neg (by omega)]
    | succ fuel2 =>
      simp only [create_chunks_loop]
      split
      · rename_i hlt
        split
        · rfl
        · have hgt := next_start_idx_gt chunk_size overlap
            (min (s + chunk_size) words.length) s
          rw [ih fuel2 (next_start_idx chunk_size overlap (min (s + chunk_size) words.length) s)
            (c + 1) (by omega) (by omega)]
      · rfl

/-- C4: for every input text, base metadata, window size ≥ 1 and any
overlap (including overlap ≥ window size and negative-progress settings),
the chunking loop terminates within a number of iterations bounded by the
document's word count — the budget `words.length` behaves exactly like any
larger budget (the loop exits on its own), and the number of chunks
produced never exceeds the word count. -/
theorem create_chunks_terminates_word_bound (chunk_size : Nat) (overlap : Int)
    (text : String) (base : PyDict) (clock : Nat → String)
    (hcs : 1 ≤ chunk_size) :
    (create_chunks chunk_size overlap text base clock).length ≤ (pySplit text).length ∧
    (∀ fuel, (pySplit text).length ≤ fuel →
      create_chunks_loop chunk_size overlap (pySplit text) base clock fuel 0 0 =
      create_chunks_loop chunk_size overlap (pySplit text) base clock
        (pySplit text).length 0 0) := by
  constructor
  · unfold create_chunks
    split
    · simp
    · split
      · simp
      · dsimp only
        split
        · simp
        · exact create_chunks_loop_length_le chunk_size overlap (pySplit text) base clock _ 0 0
  · intro fuel hfuel
    exact create_chunks_loop_fuel_stable chunk_size overlap (pySplit text) base clock
      fuel (pySplit text).length 0 0 (by omega) (by omega)

/-- The fixture document for the chunker claims: one hundred words, two of
which make the default filing-content lexicon pass validation. -/
def c5text : String := "company securities " ++ joinSpace (List.replicate 98 "zq")

set_option maxRecDepth 10000 in
/-- Witness for C4: with window size 30 and overlap 50 (overlap larger
than the window, exercising the forced advance) the fixture document
yields at most 100 chunks, and a budget of 105 behaves like the budget
100. -/
theorem create_chunks_terminates_word_bound_witness :
    (create_chunks 30 50 c5text [] (fun _ => "T")).length ≤ (pySplit c5text).length ∧
    create_chunks_loop 30 50 (pySplit c5text) [] (fun _ => "T") 105 0 0 =
      create_chunks_loop 30 50 (pySplit c5text) [] (fun _ => "T")
        (pySplit c5text).length 0 0 := by
  have h := create_chunks_terminates_word_bound 30 50 c5text [] (fun _ => "T") (by norm_num)
  refine ⟨h.1, ?_⟩
  have h2 := h.2 105 (by decide)
  rw [h2]

/-! ## C5 — chunking determinism up to the wall-clock timestamp -/

/-- Remove the wall-clock field from a source-attribution dict. -/
def scrubAttr : PyVal → PyVal
  | .pdict es => .pdict (es.filter (fun e => e.1 != "extraction_timestamp"))
  | v => v

/-- Scrub one metadata entry: only the source attribution holds a clock. -/
def scrubEntry (e : String × PyVal) : String × PyVal :=
  if e.1 = "source_attribution" then (e.1, scrubAttr e.2) else e

/-- Metadata with the extraction timestamp removed. -/
def scrubMeta (md : PyDict) : PyDict := md.map scrubEntry

/-- Scrubbing preserves the key of an entry. -/
theorem scrubEntry_fst (e : String × PyVal) : (scrubEntry e).1 = e.1 := by
  unfold scrubEntry
  split <;> rfl

/-- Key search is unaffected by scrubbing. -/
theorem find_isSome_scrub (k : String) :
    ∀ md : PyDict, (List.find? (fun e => e.1 == k) (md.map scrubEntry)).isSome =
      (List.find? (fun e => e.1 == k) md).isSome := by
  intro md
  induction md with
  | nil => rfl
  | cons e md ih =>
    simp only [List.map_cons, List.find?_cons]
    rw [scrubEntry_fst]
    cases he : (e.1 == k) with
    | true => rfl
    | false => exact ih

/-- Scrubbing commutes with setting any key other than the attribution. -/
theorem scrubMeta_dset_comm (md : PyDict) (k : String) (v : PyVal)
    (hk : k ≠ "source_attribution") :
    scrubMeta (dset md k v) = dset (scrubMeta md) k v := by
  unfold scrubMeta dset
  rw [find_isSome_scrub]
  split
  · rw [List.map_map, List.map_map]
    refine List.map_congr_left (fun e _ => ?_)
    simp only [Function.comp_apply]
    by_cases hek : (e.1 == k) = true
    · rw [if_pos hek]
      have h1 : scrubEntry (k, v) = (k, v) := by
        unfold scrubEntry
        rw [if_neg (by simpa using hk)]
      rw [h1]
      rw [if_pos (by rw [scrubEntry_fst]; exact hek)]
    · rw [if_neg hek]
      rw [if_neg (by rw [scrubEntry_fst]; exact hek)]
  · rw [List.map_append]
    congr 1
    simp only [List.map_cons, List.map_nil]
    unfold scrubEntry
    rw [if_neg (by simpa using hk)]

/-- Setting the source attribution to dicts with equal scrubs yields
scrub-equal metadata. -/
theorem scrubMeta_dset_attr (md : PyDict) (a1 a2 : PyVal)
    (h : scrubAttr a1 = scrubAttr a2) :
    scrubMeta (dset md "source_attribution" a1) =
    scrubMeta (dset md "source_attribution" a2) := by
  unfold scrubMeta dset
  split
  · rw [List.map_map, List.map_map]
    refine List.map_congr_left (fun e _ => ?_)
    simp only [Function.comp_apply]
    by_cases hek : (e.1 == "source_attribution") = true
    · rw [if_pos hek, if_pos hek]
      unfold scrubEntry
      rw [if_pos rfl, if_pos rfl]
      rw [h]
    · rw [if_neg hek, if_neg hek]
  · rw [List.map_append, List.map_append]
    congr 1
    simp only [List.map_cons, List.map_nil]
    unfold scrubEntry
    rw [if_pos rfl, if_pos rfl, h]

/-- Two source attributions for the same chunk differ only in the
extraction timestamp. -/
theorem scrubAttr_attribution (base : PyDict) (i : Nat) (t1 t2 : String) :
    scrubAttr (.pdict (create_source_attribution base i t1)) =
    scrubAttr (.pdict (create_source_attribution base i t2)) := rfl

set_option maxHeartbeats 1000000 in
/-- Enriched chunk metadata built at two different clock readings is
identical after scrubbing the timestamp. -/
theorem scrubMeta_enrich (chunk_text : String) (base : PyDict) (i s e wc : Nat)
    (t1 t2 : String) :
    scrubMeta (enrich_chunk_metadata chunk_text base i s e wc t1) =
    scrubMeta (enrich_chunk_metadata chunk_text base i s e wc t2) := by
  unfold enrich_chunk_metadata
  rw [scrubMeta_dset_comm _ "keywords" _ (by decide)]
  rw [scrubMeta_dset_comm _ "keywords" _ (by decide)]
  exact congrArg (fun m => dset m "keywords"
    (.plist ((extract_keywords chunk_text (identify_financial_content_type chunk_text)).map .s)))
    (scrubMeta_dset_attr _ _ _ (scrubAttr_attribution base i t1 t2))

/-- The chunking loop under two clocks: chunk ids, contents and scrubbed
metadata agree. -/
theorem create_chunks_loop_clock_invariant (chunk_size : Nat) (overlap : Int)
    (words : List String) (base : PyDict) (clock1 clock2 : Nat → String) :
    ∀ fuel start_idx counter,
      ((create_chunks_loop chunk_size overlap words base clock1 fuel start_idx counter).map
          (fun ch => ch.chunk_id) =
        (create_chunks_loop chunk_size overlap words base clock2 fuel start_idx counter).map
          (fun ch => ch.chunk_id)) ∧
      ((create_chunks_loop chunk_size overlap words base clock1 fuel start_idx counter).map
          (fun ch => ch.content) =
        (create_chunks_loop chunk_size overlap words base clock2 fuel start_idx counter).map
          (fun ch => ch.content)) ∧
      ((create_chunks_loop chunk_size overlap words base clock1 fuel start_idx counter).map
          (fun ch => scrubMeta ch.metadata) =
        (create_chunks_loop chunk_size overlap words base clock2 fuel start_idx counter).map
          (fun ch => scrubMeta ch.metadata)) := by
  intro fuel
  induction fuel with
  | zero => intro s c; exact ⟨rfl, rfl, rfl⟩
  | succ fuel ih =>
    intro s c
    simp only [create_chunks_loop]
    split
    · split
      · exact ⟨rfl, rfl, rfl⟩
      · simp only [List.map_cons]
        obtain ⟨ih1, ih2, ih3⟩ := ih (next_start_idx chunk_size overlap
          (min (s + chunk_size) words.length) s) (c + 1)
        refine ⟨?_, ?_, ?_⟩
        · rw [ih1]
        · rw [ih2]
        · rw [ih3, scrubMeta_enrich _ _ _ _ _ _ (clock1 c) (clock2 c)]
    · exact ⟨rfl, rfl, rfl⟩

/-- C5 (amended): chunking the same text and base metadata twice yields
chunk lists that agree elementwise in chunk id, content, and the entire
metadata map except the `extraction_timestamp` recorded inside
`source_attribution`, which reflects the wall clock of each run; two runs
observing the same clock yield identical chunk lists. -/
theorem create_chunks_deterministic_up_to_timestamp (chunk_size : Nat) (overlap : Int)
    (text : String) (base : PyDict) (clock1 clock2 : Nat → String) :
    ((create_chunks chunk_size overlap text base clock1).map (fun ch => ch.chunk_id) =
      (create_chunks chunk_size overlap text base clock2).map (fun ch => ch.chunk_id)) ∧
    ((create_chunks chunk_size overlap text base clock1).map (fun ch => ch.content) =
      (create_chunks chunk_size overlap text base clock2).map (fun ch => ch.content)) ∧
    ((create_chunks chunk_size overlap text base clock1).map (fun ch => scrubMeta ch.metadata) =
      (create_chunks chunk_size overlap text base clock2).map (fun ch => scrubMeta ch.metadata)) ∧
    (clock1 = clock2 →
      create_chunks chunk_size overlap text base clock1 =
      create_chunks chunk_size overlap text base clock2) := by
  refine ⟨?_, ?_, ?_, ?_⟩ <;>
    [skip; skip; skip; (intro h; rw [h])] <;>
    · unfold create_chunks
      split
      · rfl
      · split
        · rfl
        · dsimp only
          split
          · rfl
          · first
            | exact (create_chunks_loop_clock_invariant chunk_size overlap (pySplit text)
                base clock1 clock2 (pySplit text).length 0 0).1
            | exact (create_chunks_loop_clock_invariant chunk_size overlap (pySplit text)
                base clock1 clock2 (pySplit text).length 0 0).2.1
            | exact (create_chunks_loop_clock_invariant chunk_size overlap (pySplit text)
                base clock1 clock2 (pySplit text).length 0 0).2.2

/-- Projection reading the extraction timestamp out of a chunk's metadata. -/
def metaExtractionTimestamp (md : PyDict) : Option String :=
  match dget md "source_attribution" with
  | some (PyVal.pdict es) =>
    match dget es "extraction_timestamp" with
    | some (PyVal.s t) => some t
    | _ => none
  | _ => none

set_option maxRecDepth 10000 in
/-- The fixture document scores 2/3 on the default filing-content lexicon. -/
theorem c5text_filing_score :
    calculate_filing_content_score (lowerStr c5text) (dgetStr [] "filing_type" "") =
      min ((2 : ℚ) / 3) 1 := by
  unfold calculate_filing_content_score
  dsimp only
  rw [show filingIndicatorsDict (dgetStr [] "filing_type" "") = none from by decide]
  simp only [Option.getD_none]
  rw [show countContained (lowerStr c5text) ["sec filing", "securities", "company"] = 2
    from by decide]
  rw [if_neg (by decide)]
  norm_num

set_option maxRecDepth 10000 in
/-- The fixture document passes the chunker's validation pipeline. -/
theorem c5text_valid : (validate_filing_content c5text []).is_valid = true := by
  unfold validate_filing_content
  dsimp only
  rw [if_neg (by decide)]
  rw [if_neg (by decide)]
  rw [if_neg (by rw [c5text_filing_score]; norm_num)]

set_option maxRecDepth 10000 in
/-- Chunking the fixture document reduces to the loop over its 100 words. -/
theorem c5text_create_eq_loop (clock : Nat → String) :
    create_chunks 1000 200 c5text [] clock =
      create_chunks_loop 1000 200 (pySplit c5text) [] clock (pySplit c5text).length 0 0 := by
  unfold create_chunks
  rw [if_neg (by decide)]
  rw [if_neg (by simp [c5text_valid])]
  dsimp only
  rw [if_neg (by decide)]

set_option maxRecDepth 100000 in
set_option maxHeartbeats 2000000 in
/-- The single chunk produced from the fixture document carries the clock
reading observed while building chunk 0 as its extraction timestamp. -/
theorem c5text_run_timestamp (clock : Nat → String) :
    (create_chunks 1000 200 c5text [] clock).map
      (fun ch => metaExtractionTimestamp ch.metadata) = [some (clock 0)] := by
  rw [c5text_create_eq_loop]
  rfl

/-- Counterexample to C5: two chunker runs over the same text and base
metadata observing different wall clocks produce different metadata maps —
the extraction timestamp inside `source_attribution` records
`datetime.now()`, so re-chunking is not metadata-identical. -/
theorem create_chunks_metadata_depends_on_clock :
    ¬ ((create_chunks 1000 200 c5text [] (fun _ => "2024-01-01T00:00:00")).map
        (fun ch => ch.metadata) =
       (create_chunks 1000 200 c5text [] (fun _ => "2024-01-02T00:00:00")).map
        (fun ch => ch.metadata)) := by
  intro h
  have h2 := congrArg (List.map metaExtractionTimestamp) h
  rw [List.map_map, List.map_map] at h2
  simp only [Function.comp_def] at h2
  rw [c5text_run_timestamp (fun _ => "2024-01-01T00:00:00"),
    c5text_run_timestamp (fun _ => "2024-01-02T00:00:00")] at h2
  exact absurd h2 (by decide)

/-- Witness for C5 (amended): for the fixture document, two runs under
different clocks agree on chunk ids, and a run is equal to itself under
the same clock. -/
theorem create_chunks_deterministic_up_to_timestamp_witness :
    ((create_chunks 1000 200 c5text [] (fun _ => "2024-01-01T00:00:00")).map
        (fun ch => ch.chunk_id) =
      (create_chunks 1000 200 c5text [] (fun _ => "2024-01-02T00:00:00")).map
        (fun ch => ch.chunk_id)) ∧
    create_chunks 1000 200 c5text [] (fun _ => "2024-01-01T00:00:00") =
      create_chunks 1000 200 c5text [] (fun _ => "2024-01-01T00:00:00") :=
  ⟨(create_chunks_deterministic_up_to_timestamp 1000 200 c5text [] _ _).1,
   (create_chunks_deterministic_up_to_timestamp 1000 200 c5text [] _ _).2.2.2 rfl⟩

/-- Witness for C6 (amended): on the fixture disk, the completed save
leaves the new snapshot, and the concrete first operation — the in-place
truncating open — is not a rename. -/
theorem save_to_disk_direct_write_witness :
    applyFsOps disk0 (save_to_disk_ops "store/sec_filings.pkl" newSnap)
      "store/sec_filings.pkl" = some (.good newSnap) ∧
    (FsOp.openTrunc "store/sec_filings.pkl").isRenameOp = false :=
  ⟨(save_to_disk_direct_write disk0 "store/sec_filings.pkl" newSnap).1,
   ((save_to_disk_direct_write disk0 "store/sec_filings.pkl" newSnap).2.1 _
     (by simp [save_to_disk_ops])).1⟩
